import Mathlib

/-!
Verification of the BuliMaps gameplay simulation core: the `Player`
locomotion/animation state machine, the ground sensor, and the `GameCamera`
state machine (files `src/GameCamera.js`, `src/Player.js`,
`src/viewer/game-preview.js`).

Modelling conventions:
* JavaScript floating-point numbers are modelled by exact rationals `ℚ`
  (the angle-wrapping helpers are additionally stated generically over any
  linear ordered field with a floor, so they can also be read over `ℝ`
  with the true `π`).
* Irrational trigonometric primitives of three.js (`applyQuaternion`,
  `setFromSphericalCoords`, `applyAxisAngle`, `Math.atan2`) have no exact
  rational counterpart; they are supplied as an explicit oracle record
  `Geom` of arbitrary functions, together with a rational parameter
  standing for the literal `Math.PI` wherever the code stores it into
  state.  Every theorem below is proved for every such oracle, and
  witnesses instantiate a concrete one.
* The three.js `AnimationMixer` is modelled only through the data the
  gameplay code observes: which named clip is current
  (`currentAnimation`), which clip names exist (`animations`), and which
  actions have been configured one-shot (`setLoop(LoopOnce)` +
  `clampWhenFinished`, recorded in `loopOnceClips`).
* The `Player.update` / `Player.reset` early-returns on a not-yet-loaded
  model (`if (!this.model) return`) are outside the model: the embedding
  represents the player after `load()` completed, which is the only state
  the frame loop ever runs on.
-/

namespace BuliMaps

/-- A three.js `Vector3`, restricted to the exact rational values the
gameplay code manipulates. -/
structure Vec3 where
  x : ℚ
  y : ℚ
  z : ℚ
deriving DecidableEq, Repr

def Vec3.add (a b : Vec3) : Vec3 := ⟨a.x + b.x, a.y + b.y, a.z + b.z⟩

def Vec3.smul (k : ℚ) (v : Vec3) : Vec3 := ⟨k * v.x, k * v.y, k * v.z⟩

/-- three.js `lerpVectors` / `Vector3.lerp`: componentwise `a + (b-a)*t`. -/
def Vec3.lerpV (a b : Vec3) (t : ℚ) : Vec3 :=
  ⟨a.x + (b.x - a.x) * t, a.y + (b.y - a.y) * t, a.z + (b.z - a.z) * t⟩

/-- One raycast intersection as returned by
`raycaster.intersectObjects(mapCollider, true)`: the code reads only
`.distance` and `.point`. -/
structure Hit where
  distance : ℚ
  point : Vec3
deriving DecidableEq, Repr

/-- The immutable world collision set, abstracted as the function the
raycaster computes: from a ray origin (the ray direction is always
straight down) to the sorted intersection list. -/
structure World where
  rayHits : Vec3 → List Hit

/-- The flat per-frame input snapshot `controlsState`. -/
structure Controls where
  forward : Bool
  backward : Bool
  left : Bool
  right : Bool
  jump : Bool
  mouseLookActive : Bool
deriving DecidableEq, Repr

/-- Oracle for the irrational geometric primitives used by the code, plus
a rational stand-in for the literal `Math.PI`. -/
structure Geom where
  pi : ℚ
  /-- `Vector3.applyQuaternion(model.quaternion)` where the model's Euler
  rotation is `(rotX, rotY, 0)`: arguments are `rotX rotY v`. -/
  rotateEuler : ℚ → ℚ → Vec3 → Vec3
  /-- `Vector3.setFromSphericalCoords radius polar azimuth`. -/
  spherical : ℚ → ℚ → ℚ → Vec3
  /-- `Math.atan2 y x`. -/
  atan2 : ℚ → ℚ → ℚ
  /-- `applyAxisAngle((1,0,0), angle)`. -/
  axisAngleX : ℚ → Vec3 → Vec3
  /-- `applyAxisAngle((0,1,0), angle)`. -/
  axisAngleY : ℚ → Vec3 → Vec3

/-! Constants of `Player.js` (module scope and the locals of `update`). -/

def GRAVITY : ℚ := -15
def JUMP_FORCE : ℚ := 8
def RAYCAST_HEIGHT : ℚ := 5
def GROUNDED_BUFFER_TIME : ℚ := 0.2
def GROUND_TOLERANCE : ℚ := 0.1
def SPAWN_INITIAL_VELOCITY : ℚ := -1
def WALK_SPEED : ℚ := 2.5
def SPRINT_SPEED : ℚ := 5
def AIR_CONTROL_FACTOR : ℚ := 0.6
def TERMINAL_VELOCITY : ℚ := -45
def FALL_ANIM_DELAY : ℚ := 0.4

/-- The whole mutable state of a loaded `Player`: transform of `model`,
the `state` flag bag, the scalar timers/velocity, and the observable
animation state. -/
structure PlayerState where
  pos : Vec3
  rotX : ℚ
  rotY : ℚ
  idle : Bool
  walking : Bool
  sprinting : Bool
  jumping : Bool
  falling : Bool
  verticalVelocity : ℚ
  walkToSprintTime : ℚ
  timeSinceGrounded : ℚ
  currentAnimation : Option String
  feetOffset : ℚ
  spawnPoint : Vec3
  /-- Names present in `this.animations` (the loaded clip-action map). -/
  animations : List String
  /-- Clip names whose action has been configured one-shot
  (`setLoop(LoopOnce, 1)` and `clampWhenFinished = true`). -/
  loopOnceClips : List String
deriving DecidableEq, Repr

/-- `Player._switchAnimation(name, fade)`.  Returns the new state and
whether the non-fatal `console.warn` fired.  The `fade` duration only
parameterises the mixer cross-fade, which is not otherwise observable. -/
def switchAnimation (s : PlayerState) (name : String) (fade : ℚ) : PlayerState × Bool :=
  -- `const target = this.animations[name]; if (!target) { warn; return; }`
  if name ∈ s.animations then
    -- `if (this.currentAnimation === name) return;`
    if s.currentAnimation = some name then (s, false)
    else
      ({ s with
          currentAnimation := some name,
          -- `if (name === 'jump') { target.setLoop(LoopOnce,1); clampWhenFinished }`
          loopOnceClips :=
            if name = "jump" ∧ name ∉ s.loopOnceClips then name :: s.loopOnceClips
            else s.loopOnceClips }, false)
  else (s, true)

/-- Discard the warning flag. -/
def switchAnimation' (s : PlayerState) (name : String) (fade : ℚ) : PlayerState :=
  (switchAnimation s name fade).1

/-- Ray origin: `model.position.clone(); rayOrigin.y += RAYCAST_HEIGHT`. -/
def rayOriginOf (s : PlayerState) : Vec3 :=
  ⟨s.pos.x, s.pos.y + RAYCAST_HEIGHT, s.pos.z⟩

/-- `raycaster.intersectObjects(mapCollider, true)` at the current position. -/
def hitsOf (w : World) (s : PlayerState) : List Hit :=
  w.rayHits (rayOriginOf s)

/-- `grounded = hits.length > 0 && hits[0].distance < RAYCAST_HEIGHT + feetOffset + GROUND_TOLERANCE`. -/
def groundedAt (w : World) (s : PlayerState) : Bool :=
  match hitsOf w s with
  | [] => false
  | h :: _ => decide (h.distance < RAYCAST_HEIGHT + s.feetOffset + GROUND_TOLERANCE)

/-- `Player.reset()` (on a loaded model). -/
def resetPlayer (g : Geom) (s : PlayerState) : PlayerState :=
  switchAnimation'
    { s with
        pos := s.spawnPoint,
        rotX := 0,
        rotY := g.pi,
        verticalVelocity := SPAWN_INITIAL_VELOCITY,
        timeSinceGrounded := GROUNDED_BUFFER_TIME + 0.01,
        idle := false, walking := false, sprinting := false,
        jumping := true, falling := true }
    "jump" 0.1

/-- The `ground check` block of `Player.update` (timeSinceGrounded
update, flag/tilt clearing on contact, falling detection past the
buffer). -/
def groundStage (s : PlayerState) (grounded : Bool) (delta : ℚ) : PlayerState :=
  if grounded then
    { s with timeSinceGrounded := 0,
             falling := if s.falling || s.jumping then false else s.falling,
             jumping := if s.falling || s.jumping then false else s.jumping,
             rotX := if s.falling || s.jumping then 0 else s.rotX }
  else
    let t := s.timeSinceGrounded + delta
    { s with timeSinceGrounded := t,
             falling := if decide (t > GROUNDED_BUFFER_TIME) && !s.jumping then true else s.falling }

/-- The `leave ground` block: swap a ground-locomotion clip for the idle
placeholder and clear `walking` (sprint deliberately untouched). -/
def leaveGroundStage (s : PlayerState) (justLeftGround : Bool) : PlayerState :=
  if justLeftGround then
    let s1 :=
      if s.currentAnimation == some "walk" || s.currentAnimation == some "sprint" then
        switchAnimation' s "idle" 0.15
      else s
    { s1 with walking := false }
  else s

/-- The `jump input` block: set the jump impulse, switch to the jump
clip, and rebuild the flag bag preserving `sprinting`. -/
def jumpStage (s : PlayerState) (grounded : Bool) (c : Controls) : PlayerState :=
  if grounded && c.jump then
    let s1 : PlayerState := { s with verticalVelocity := JUMP_FORCE }
    let s2 := switchAnimation' s1 "jump" 0.1
    { s2 with idle := false, walking := false, sprinting := s2.sprinting,
              jumping := true, falling := false }
  else s

/-- The `movement input` block: yaw turn from left/right (also mid-air),
then translate along the local forward/backward direction
(`dir.normalize()` is the identity on the unit vectors `(0,0,±1)`). -/
def moveStage (g : Geom) (s : PlayerState) (grounded : Bool) (c : Controls)
    (delta : ℚ) : PlayerState :=
  let moving := c.forward || c.backward
  let dirZ : ℚ := if c.backward then -1 else if c.forward then 1 else 0
  let s1 := if c.left then { s with rotY := s.rotY + 3 * delta } else s
  let s2 := if c.right then { s1 with rotY := s1.rotY - 3 * delta } else s1
  if moving then
    let baseSpeed := if s2.sprinting then SPRINT_SPEED else WALK_SPEED
    let speedFactor : ℚ := if grounded then 1 else AIR_CONTROL_FACTOR
    let dir := Vec3.smul (baseSpeed * speedFactor * delta)
      (g.rotateEuler s2.rotX s2.rotY ⟨0, 0, dirZ⟩)
    { s2 with pos := s2.pos.add dir }
  else s2

/-- The `vertical physics` block: gravity integration, terminal-velocity
clamp, grounded snap-to-contact, position integration. -/
def verticalStage (s : PlayerState) (grounded : Bool) (firstHit : Option Hit)
    (delta : ℚ) : PlayerState :=
  let s1 : PlayerState := { s with verticalVelocity := s.verticalVelocity + GRAVITY * delta }
  let s2 :=
    if decide (s1.verticalVelocity < TERMINAL_VELOCITY) then
      { s1 with verticalVelocity := TERMINAL_VELOCITY }
    else s1
  let s3 :=
    if grounded && decide (s2.verticalVelocity < 0) then
      { s2 with verticalVelocity := 0,
                pos := ⟨s2.pos.x, firstHit.elim s2.pos.y (fun h => h.point.y + s2.feetOffset),
                       s2.pos.z⟩ }
    else s2
  { s3 with pos := ⟨s3.pos.x, s3.pos.y + s3.verticalVelocity * delta, s3.pos.z⟩ }

/-- The `animation state machine` block: jump→fall placeholder while
airborne, walk/sprint selection and the walk-to-sprint ramp while moving
on the ground, idle otherwise. -/
def animStage (s : PlayerState) (grounded : Bool) (c : Controls) (delta : ℚ) : PlayerState :=
  let moving := c.forward || c.backward
  let s1 :=
    if !grounded && (s.currentAnimation == some "jump") &&
        decide (s.timeSinceGrounded > FALL_ANIM_DELAY) && decide (s.verticalVelocity < -0.1) then
      switchAnimation' s "idle" 0.25
    else s
  if grounded then
    if moving then
      let desiredAnim := if s1.sprinting then "sprint" else "walk"
      let s2 :=
        if s1.currentAnimation != some desiredAnim then switchAnimation' s1 desiredAnim 0.15
        else s1
      let s3 :=
        if !s2.sprinting then
          let t := s2.walkToSprintTime + delta
          let s2' : PlayerState := { s2 with walkToSprintTime := t }
          if decide (t > 1) then
            switchAnimation' { s2' with sprinting := true } "sprint" 0.2
          else s2'
        else s2
      { s3 with idle := false, walking := !s3.sprinting }
    else
      let s2 :=
        if s1.currentAnimation != some "idle" then switchAnimation' s1 "idle" 0.3
        else s1
      { s2 with walkToSprintTime := 0, idle := true, walking := false, sprinting := false }
  else s1

/-- `Player.update(delta, controls, mapCollider, raycaster)` up to (and
excluding) the void-fallthrough housekeeping check; the stages follow the
source blocks in order (`mixer.update` is not part of the observable
state). -/
def playerUpdateCore (g : Geom) (w : World) (s : PlayerState)
    (delta : ℚ) (c : Controls) : PlayerState :=
  let wasGrounded := decide (s.timeSinceGrounded < GROUNDED_BUFFER_TIME)
  let firstHit := (hitsOf w s).head?
  let grounded := groundedAt w s
  animStage
    (verticalStage
      (moveStage g
        (jumpStage
          (leaveGroundStage (groundStage s grounded delta) (!grounded && wasGrounded))
          grounded c)
        grounded c delta)
      grounded firstHit delta)
    grounded c delta

/-- `Player.update`, including the void-fallthrough fail-safe
`if (this.model.position.y < -50) { this.reset(); return; }`. -/
def playerUpdate (g : Geom) (w : World) (s : PlayerState)
    (delta : ℚ) (c : Controls) : PlayerState :=
  let s' := playerUpdateCore g w s delta c
  if s'.pos.y < -50 then resetPlayer g s' else s'

/-! Constants of `GameCamera.js`. -/

def CINEMATIC_RADIUS : ℚ := 15
def FALL_TRANSITION_DURATION : ℚ := 2
def CAMERA_SMOOTHING : ℚ := 0.03
def CAMERA_DISTANCE : ℚ := 0
def CAMERA_ELEVATION : ℚ := 6
def CAMERA_LOOK_AT_HEIGHT : ℚ := 2

/-- `this.mode`: the two camera modes of the simplified camera system. -/
inductive CamMode where
  | CINEMATIC_FALL
  | THIRD_PERSON
deriving DecidableEq, Repr

/-- Mutable state of a `GameCamera` (the `camera.position` write target is
`cameraPos`; the `lookAt` orientation is a pure function of `cameraPos`
and `smoothedLookAt` and carries no extra state). -/
structure CameraState where
  mode : CamMode
  distance : ℚ
  polar : ℚ
  azimuth : ℚ
  cinematicTimer : ℚ
  smoothedLookAt : Vec3
  cameraPos : Vec3
  mapCenter : Vec3
deriving DecidableEq, Repr

/-- `THREE.MathUtils.lerp`. -/
def mathLerp (a b t : ℚ) : ℚ := a + (b - a) * t

/-- `GameCamera.easeInOutCubic`. -/
def easeInOutCubic (t : ℚ) : ℚ :=
  if t < 1/2 then 4 * t * t * t else 1 - (-2 * t + 2)^3 / 2

/-- JavaScript truncating division used by the `%` operator: rounds the
quotient toward zero. -/
def jsTrunc {K : Type} [LinearOrderedField K] [FloorRing K] (q : K) : ℤ :=
  if q < 0 then ⌈q⌉ else ⌊q⌋

/-- The JavaScript `%` (remainder) operator on numbers:
`x % y = x - y * trunc(x / y)` (sign follows the dividend). -/
def jsMod {K : Type} [LinearOrderedField K] [FloorRing K] (x y : K) : K :=
  x - y * (jsTrunc (x / y) : K)

/-- `GameCamera._shortestAngleDiff(a, b)`, stated generically so it can be
read over `ℝ` with the true `π` (parameter `p`) as well as over `ℚ`. -/
def shortestAngleDiff {K : Type} [LinearOrderedField K] [FloorRing K]
    (p a b : K) : K :=
  let diff := jsMod (b - a + p) (p * 2) - p
  if diff < -p then diff + p * 2 else diff

/-- `GameCamera.lerpAngle(a, b, t)`. -/
def lerpAngle {K : Type} [LinearOrderedField K] [FloorRing K]
    (p a b t : K) : K :=
  a + shortestAngleDiff p a b * t

/-- `GameCamera.checkLanding(playerIsGrounded)`: the one-way
CINEMATIC_FALL → THIRD_PERSON switch.  `target` is the player model. -/
def checkLanding (g : Geom) (target : PlayerState) (cam : CameraState)
    (playerIsGrounded : Bool) : CameraState :=
  if playerIsGrounded && decide (cam.mode = CamMode.CINEMATIC_FALL) then
    { cam with mode := CamMode.THIRD_PERSON, azimuth := target.rotY + g.pi }
  else cam

/-- `GameCamera.update(delta, forceImmediate)`.  `target` is the player
model; `mouseLookActive` is the `controlsState.mouseLookActive` global. -/
def cameraUpdate (g : Geom) (target : PlayerState) (cam : CameraState)
    (delta : ℚ) (forceImmediate : Bool) (mouseLookActive : Bool) : CameraState :=
  let startPolar : ℚ := g.pi / 2.8    -- START_POLAR_ANGLE = Math.PI / 2.8
  let endPolar : ℚ := g.pi / 4.5      -- END_POLAR_ANGLE = Math.PI / 4.5
  let res : CameraState × Vec3 × Vec3 :=
    if cam.mode = CamMode.CINEMATIC_FALL then
      let timer := cam.cinematicTimer + delta
      let progress := min (timer / FALL_TRANSITION_DURATION) 1
      let easeProgress := easeInOutCubic progress
      let currentPolar := mathLerp startPolar endPolar easeProgress
      let startAzimuth := target.rotY + g.pi
      let endAzimuth := g.atan2 (target.pos.x - cam.mapCenter.x) (target.pos.z - cam.mapCenter.z)
      let currentAzimuth := lerpAngle g.pi startAzimuth endAzimuth easeProgress
      let offset := g.spherical CINEMATIC_RADIUS currentPolar currentAzimuth
      let targetPosition := target.pos.add offset
      let targetLookAt := Vec3.lerpV target.pos cam.mapCenter easeProgress
      ({ cam with cinematicTimer := timer }, targetPosition, targetLookAt)
    else
      let az := if !mouseLookActive
                then lerpAngle g.pi cam.azimuth (target.rotY + g.pi) 0.1
                else cam.azimuth
      let offset := g.axisAngleY az (g.axisAngleX cam.polar ⟨0, CAMERA_ELEVATION, cam.distance⟩)
      let tp := target.pos.add offset
      let targetPosition := if tp.y < 0.5 then { tp with y := 0.5 } else tp
      let targetLookAt := target.pos.add ⟨0, CAMERA_LOOK_AT_HEIGHT, 0⟩
      ({ cam with azimuth := az }, targetPosition, targetLookAt)
  let cam := res.1
  let targetPosition := res.2.1
  let targetLookAt := res.2.2
  if forceImmediate then
    { cam with cameraPos := targetPosition, smoothedLookAt := targetLookAt }
  else
    { cam with cameraPos := Vec3.lerpV cam.cameraPos targetPosition CAMERA_SMOOTHING,
               smoothedLookAt := Vec3.lerpV cam.smoothedLookAt targetLookAt CAMERA_SMOOTHING }

/-- `GameCamera.reset()` (the `target` is always non-null once the game
runs; the CINEMATIC_FALL branch of the forced update never reads
`mouseLookActive`, passed here as `false`). -/
def cameraReset (g : Geom) (target : PlayerState) (cam : CameraState) : CameraState :=
  cameraUpdate g target
    { cam with
        mode := CamMode.CINEMATIC_FALL,
        azimuth := target.rotY + g.pi,
        cinematicTimer := 0,
        smoothedLookAt := target.pos }
    0 true false

/-- Combined player + camera state as owned by `game-preview.js`. -/
structure SimState where
  player : PlayerState
  camera : CameraState
deriving DecidableEq, Repr

/-- One iteration of `_animate()` (the graphics update has no feedback
into gameplay state): player update, then
`checkLanding(player.timeSinceGrounded < 0.2)`, then camera update. -/
def frame (g : Geom) (w : World) (sim : SimState)
    (delta : ℚ) (c : Controls) : SimState :=
  let p := playerUpdate g w sim.player delta c
  let cam := checkLanding g p sim.camera (decide (p.timeSinceGrounded < 0.2))
  let cam := cameraUpdate g p cam delta false c.mouseLookActive
  ⟨p, cam⟩

/-- Iterated frames with per-frame `(delta, controls)` inputs. -/
def runFrames (g : Geom) (w : World) (sim : SimState) :
    List (ℚ × Controls) → SimState
  | [] => sim
  | i :: rest => runFrames g w (frame g w sim i.1 i.2) rest

/-- The `restart()` entry of the controller API:
`player.reset(); gameCamera.reset()`. -/
def resetBoth (g : Geom) (sim : SimState) : SimState :=
  let p := resetPlayer g sim.player
  ⟨p, cameraReset g p sim.camera⟩

/-! ### Concrete instances used by witnesses and counterexamples -/

/-- A concrete geometry oracle (any inhabitant will do for witnesses:
the theorems hold for every oracle). -/
def geomW : Geom :=
  { pi := 3.14
    rotateEuler := fun _ _ v => v
    spherical := fun _ _ _ => ⟨0, 0, 0⟩
    atan2 := fun _ _ => 0
    axisAngleX := fun _ v => v
    axisAngleY := fun _ v => v }

/-- A concrete world: the downward ray reports one hit of distance `5`
whenever the ray origin is at height at most `5.5` (so the player is
grounded exactly when `pos.y ≤ 0.5`). -/
def worldW : World :=
  { rayHits := fun o => if o.y ≤ 5.5 then [⟨5, ⟨o.x, o.y - 5, o.z⟩⟩] else [] }

/-- An empty world: the ray never hits anything. -/
def worldEmpty : World := { rayHits := fun _ => [] }

/-- A concrete grounded player state with the sprint flag set. -/
def playerW : PlayerState :=
  { pos := ⟨0, 0, 0⟩, rotX := 0, rotY := 0
    idle := false, walking := false, sprinting := true, jumping := false, falling := false
    verticalVelocity := 0, walkToSprintTime := 0.7, timeSinceGrounded := 0
    currentAnimation := some "sprint", feetOffset := 0
    spawnPoint := ⟨0, 100, 0⟩
    animations := ["idle", "walk", "sprint", "jump"], loopOnceClips := ["jump"] }

def ctrlNone : Controls := ⟨false, false, false, false, false, false⟩
def ctrlFwd : Controls := ⟨true, false, false, false, false, false⟩
def ctrlFwdJump : Controls := ⟨true, false, false, false, true, false⟩

/-! ### Helper lemmas about `_switchAnimation` -/

theorem switchAnimation'_pos (s : PlayerState) (n : String) (f : ℚ) :
    (switchAnimation' s n f).pos = s.pos := by
  simp only [switchAnimation', switchAnimation]
  split
  · split <;> rfl
  · rfl

theorem switchAnimation'_rotX (s : PlayerState) (n : String) (f : ℚ) :
    (switchAnimation' s n f).rotX = s.rotX := by
  simp only [switchAnimation', switchAnimation]
  split
  · split <;> rfl
  · rfl

theorem switchAnimation'_rotY (s : PlayerState) (n : String) (f : ℚ) :
    (switchAnimation' s n f).rotY = s.rotY := by
  simp only [switchAnimation', switchAnimation]
  split
  · split <;> rfl
  · rfl

theorem switchAnimation'_idle (s : PlayerState) (n : String) (f : ℚ) :
    (switchAnimation' s n f).idle = s.idle := by
  simp only [switchAnimation', switchAnimation]
  split
  · split <;> rfl
  · rfl

theorem switchAnimation'_walking (s : PlayerState) (n : String) (f : ℚ) :
    (switchAnimation' s n f).walking = s.walking := by
  simp only [switchAnimation', switchAnimation]
  split
  · split <;> rfl
  · rfl

theorem switchAnimation'_sprinting (s : PlayerState) (n : String) (f : ℚ) :
    (switchAnimation' s n f).sprinting = s.sprinting := by
  simp only [switchAnimation', switchAnimation]
  split
  · split <;> rfl
  · rfl

theorem switchAnimation'_jumping (s : PlayerState) (n : String) (f : ℚ) :
    (switchAnimation' s n f).jumping = s.jumping := by
  simp only [switchAnimation', switchAnimation]
  split
  · split <;> rfl
  · rfl

theorem switchAnimation'_falling (s : PlayerState) (n : String) (f : ℚ) :
    (switchAnimation' s n f).falling = s.falling := by
  simp only [switchAnimation', switchAnimation]
  split
  · split <;> rfl
  · rfl

theorem switchAnimation'_verticalVelocity (s : PlayerState) (n : String) (f : ℚ) :
    (switchAnimation' s n f).verticalVelocity = s.verticalVelocity := by
  simp only [switchAnimation', switchAnimation]
  split
  · split <;> rfl
  · rfl

theorem switchAnimation'_walkToSprintTime (s : PlayerState) (n : String) (f : ℚ) :
    (switchAnimation' s n f).walkToSprintTime = s.walkToSprintTime := by
  simp only [switchAnimation', switchAnimation]
  split
  · split <;> rfl
  · rfl

theorem switchAnimation'_timeSinceGrounded (s : PlayerState) (n : String) (f : ℚ) :
    (switchAnimation' s n f).timeSinceGrounded = s.timeSinceGrounded := by
  simp only [switchAnimation', switchAnimation]
  split
  · split <;> rfl
  · rfl

theorem switchAnimation'_feetOffset (s : PlayerState) (n : String) (f : ℚ) :
    (switchAnimation' s n f).feetOffset = s.feetOffset := by
  simp only [switchAnimation', switchAnimation]
  split
  · split <;> rfl
  · rfl

theorem switchAnimation'_spawnPoint (s : PlayerState) (n : String) (f : ℚ) :
    (switchAnimation' s n f).spawnPoint = s.spawnPoint := by
  simp only [switchAnimation', switchAnimation]
  split
  · split <;> rfl
  · rfl

theorem switchAnimation'_animations (s : PlayerState) (n : String) (f : ℚ) :
    (switchAnimation' s n f).animations = s.animations := by
  simp only [switchAnimation', switchAnimation]
  split
  · split <;> rfl
  · rfl

/-- A successful switch makes the requested clip current. -/
theorem switchAnimation'_currentAnimation_of_mem (s : PlayerState) (n : String) (f : ℚ)
    (h : n ∈ s.animations) :
    (switchAnimation' s n f).currentAnimation = some n := by
  simp only [switchAnimation', switchAnimation, if_pos h]
  split
  · next heq => simp [heq]
  · rfl

/-- `loopOnceClips` can only grow by the name `"jump"`. -/
theorem switchAnimation'_loopOnceClips (s : PlayerState) (n : String) (f : ℚ) :
    (switchAnimation' s n f).loopOnceClips = s.loopOnceClips ∨
    (n = "jump" ∧ (switchAnimation' s n f).loopOnceClips = "jump" :: s.loopOnceClips) := by
  simp only [switchAnimation', switchAnimation]
  split
  · split
    · left; rfl
    · simp only
      split
      · next hj => right; exact ⟨hj.1, by rw [hj.1]⟩
      · left; rfl
  · left; rfl

/-! ### Per-stage field lemmas -/

theorem groundStage_pos (s : PlayerState) (b : Bool) (d : ℚ) :
    (groundStage s b d).pos = s.pos := by
  cases b <;> simp [groundStage]

theorem groundStage_rotY (s : PlayerState) (b : Bool) (d : ℚ) :
    (groundStage s b d).rotY = s.rotY := by
  cases b <;> simp [groundStage]

theorem groundStage_idle (s : PlayerState) (b : Bool) (d : ℚ) :
    (groundStage s b d).idle = s.idle := by
  cases b <;> simp [groundStage]

theorem groundStage_walking (s : PlayerState) (b : Bool) (d : ℚ) :
    (groundStage s b d).walking = s.walking := by
  cases b <;> simp [groundStage]

theorem groundStage_sprinting (s : PlayerState) (b : Bool) (d : ℚ) :
    (groundStage s b d).sprinting = s.sprinting := by
  cases b <;> simp [groundStage]

theorem groundStage_verticalVelocity (s : PlayerState) (b : Bool) (d : ℚ) :
    (groundStage s b d).verticalVelocity = s.verticalVelocity := by
  cases b <;> simp [groundStage]

theorem groundStage_walkToSprintTime (s : PlayerState) (b : Bool) (d : ℚ) :
    (groundStage s b d).walkToSprintTime = s.walkToSprintTime := by
  cases b <;> simp [groundStage]

theorem groundStage_currentAnimation (s : PlayerState) (b : Bool) (d : ℚ) :
    (groundStage s b d).currentAnimation = s.currentAnimation := by
  cases b <;> simp [groundStage]

theorem groundStage_animations (s : PlayerState) (b : Bool) (d : ℚ) :
    (groundStage s b d).animations = s.animations := by
  cases b <;> simp [groundStage]

theorem groundStage_feetOffset (s : PlayerState) (b : Bool) (d : ℚ) :
    (groundStage s b d).feetOffset = s.feetOffset := by
  cases b <;> simp [groundStage]

theorem groundStage_spawnPoint (s : PlayerState) (b : Bool) (d : ℚ) :
    (groundStage s b d).spawnPoint = s.spawnPoint := by
  cases b <;> simp [groundStage]

theorem groundStage_loopOnceClips (s : PlayerState) (b : Bool) (d : ℚ) :
    (groundStage s b d).loopOnceClips = s.loopOnceClips := by
  cases b <;> simp [groundStage]

theorem groundStage_timeSinceGrounded (s : PlayerState) (b : Bool) (d : ℚ) :
    (groundStage s b d).timeSinceGrounded = if b then 0 else s.timeSinceGrounded + d := by
  cases b <;> simp [groundStage]

theorem groundStage_rotX (s : PlayerState) (b : Bool) (d : ℚ) :
    (groundStage s b d).rotX = if b && (s.falling || s.jumping) then 0 else s.rotX := by
  cases b <;> simp [groundStage]

theorem leaveGroundStage_pos (s : PlayerState) (b : Bool) :
    (leaveGroundStage s b).pos = s.pos := by
  simp [leaveGroundStage, apply_ite PlayerState.pos, switchAnimation'_pos, ite_self]

theorem leaveGroundStage_rotX (s : PlayerState) (b : Bool) :
    (leaveGroundStage s b).rotX = s.rotX := by
  simp [leaveGroundStage, apply_ite PlayerState.rotX, switchAnimation'_rotX, ite_self]

theorem leaveGroundStage_rotY (s : PlayerState) (b : Bool) :
    (leaveGroundStage s b).rotY = s.rotY := by
  simp [leaveGroundStage, apply_ite PlayerState.rotY, switchAnimation'_rotY, ite_self]

theorem leaveGroundStage_idle (s : PlayerState) (b : Bool) :
    (leaveGroundStage s b).idle = s.idle := by
  simp [leaveGroundStage, apply_ite PlayerState.idle, switchAnimation'_idle, ite_self]

theorem leaveGroundStage_sprinting (s : PlayerState) (b : Bool) :
    (leaveGroundStage s b).sprinting = s.sprinting := by
  simp [leaveGroundStage, apply_ite PlayerState.sprinting, switchAnimation'_sprinting, ite_self]

theorem leaveGroundStage_jumping (s : PlayerState) (b : Bool) :
    (leaveGroundStage s b).jumping = s.jumping := by
  simp [leaveGroundStage, apply_ite PlayerState.jumping, switchAnimation'_jumping, ite_self]

theorem leaveGroundStage_falling (s : PlayerState) (b : Bool) :
    (leaveGroundStage s b).falling = s.falling := by
  simp [leaveGroundStage, apply_ite PlayerState.falling, switchAnimation'_falling, ite_self]

theorem leaveGroundStage_verticalVelocity (s : PlayerState) (b : Bool) :
    (leaveGroundStage s b).verticalVelocity = s.verticalVelocity := by
  simp [leaveGroundStage, apply_ite PlayerState.verticalVelocity, switchAnimation'_verticalVelocity, ite_self]

theorem leaveGroundStage_walkToSprintTime (s : PlayerState) (b : Bool) :
    (leaveGroundStage s b).walkToSprintTime = s.walkToSprintTime := by
  simp [leaveGroundStage, apply_ite PlayerState.walkToSprintTime, switchAnimation'_walkToSprintTime, ite_self]

theorem leaveGroundStage_timeSinceGrounded (s : PlayerState) (b : Bool) :
    (leaveGroundStage s b).timeSinceGrounded = s.timeSinceGrounded := by
  simp [leaveGroundStage, apply_ite PlayerState.timeSinceGrounded, switchAnimation'_timeSinceGrounded, ite_self]

theorem leaveGroundStage_animations (s : PlayerState) (b : Bool) :
    (leaveGroundStage s b).animations = s.animations := by
  simp [leaveGroundStage, apply_ite PlayerState.animations, switchAnimation'_animations, ite_self]

theorem leaveGroundStage_feetOffset (s : PlayerState) (b : Bool) :
    (leaveGroundStage s b).feetOffset = s.feetOffset := by
  simp [leaveGroundStage, apply_ite PlayerState.feetOffset, switchAnimation'_feetOffset, ite_self]

theorem leaveGroundStage_spawnPoint (s : PlayerState) (b : Bool) :
    (leaveGroundStage s b).spawnPoint = s.spawnPoint := by
  simp [leaveGroundStage, apply_ite PlayerState.spawnPoint, switchAnimation'_spawnPoint, ite_self]

theorem leaveGroundStage_eq_false (s : PlayerState) :
    leaveGroundStage s false = s := by
  simp [leaveGroundStage]

theorem jumpStage_pos (s : PlayerState) (b : Bool) (c : Controls) :
    (jumpStage s b c).pos = s.pos := by
  simp [jumpStage, apply_ite PlayerState.pos, switchAnimation'_pos, ite_self]

theorem jumpStage_rotX (s : PlayerState) (b : Bool) (c : Controls) :
    (jumpStage s b c).rotX = s.rotX := by
  simp [jumpStage, apply_ite PlayerState.rotX, switchAnimation'_rotX, ite_self]

theorem jumpStage_rotY (s : PlayerState) (b : Bool) (c : Controls) :
    (jumpStage s b c).rotY = s.rotY := by
  simp [jumpStage, apply_ite PlayerState.rotY, switchAnimation'_rotY, ite_self]

theorem jumpStage_sprinting (s : PlayerState) (b : Bool) (c : Controls) :
    (jumpStage s b c).sprinting = s.sprinting := by
  simp [jumpStage, apply_ite PlayerState.sprinting, switchAnimation'_sprinting, ite_self]

theorem jumpStage_walkToSprintTime (s : PlayerState) (b : Bool) (c : Controls) :
    (jumpStage s b c).walkToSprintTime = s.walkToSprintTime := by
  simp [jumpStage, apply_ite PlayerState.walkToSprintTime, switchAnimation'_walkToSprintTime, ite_self]

theorem jumpStage_timeSinceGrounded (s : PlayerState) (b : Bool) (c : Controls) :
    (jumpStage s b c).timeSinceGrounded = s.timeSinceGrounded := by
  simp [jumpStage, apply_ite PlayerState.timeSinceGrounded, switchAnimation'_timeSinceGrounded, ite_self]

theorem jumpStage_animations (s : PlayerState) (b : Bool) (c : Controls) :
    (jumpStage s b c).animations = s.animations := by
  simp [jumpStage, apply_ite PlayerState.animations, switchAnimation'_animations, ite_self]

theorem jumpStage_feetOffset (s : PlayerState) (b : Bool) (c : Controls) :
    (jumpStage s b c).feetOffset = s.feetOffset := by
  simp [jumpStage, apply_ite PlayerState.feetOffset, switchAnimation'_feetOffset, ite_self]

theorem jumpStage_spawnPoint (s : PlayerState) (b : Bool) (c : Controls) :
    (jumpStage s b c).spawnPoint = s.spawnPoint := by
  simp [jumpStage, apply_ite PlayerState.spawnPoint, switchAnimation'_spawnPoint, ite_self]

theorem jumpStage_eq_of_not (s : PlayerState) (b : Bool) (c : Controls)
    (h : (b && c.jump) = false) : jumpStage s b c = s := by
  simp [jumpStage, h]

theorem jumpStage_verticalVelocity (s : PlayerState) (b : Bool) (c : Controls) :
    (jumpStage s b c).verticalVelocity =
      if b && c.jump then JUMP_FORCE else s.verticalVelocity := by
  simp [jumpStage, apply_ite PlayerState.verticalVelocity,
    switchAnimation'_verticalVelocity, ite_self]

theorem jumpStage_jumping (s : PlayerState) (b : Bool) (c : Controls) :
    (jumpStage s b c).jumping = if b && c.jump then true else s.jumping := by
  simp [jumpStage, apply_ite PlayerState.jumping, switchAnimation'_jumping, ite_self]

theorem moveStage_rotX (g : Geom) (s : PlayerState) (b : Bool) (c : Controls) (d : ℚ) :
    (moveStage g s b c d).rotX = s.rotX := by
  simp [moveStage, apply_ite PlayerState.rotX, ite_self]

theorem moveStage_idle (g : Geom) (s : PlayerState) (b : Bool) (c : Controls) (d : ℚ) :
    (moveStage g s b c d).idle = s.idle := by
  simp [moveStage, apply_ite PlayerState.idle, ite_self]

theorem moveStage_walking (g : Geom) (s : PlayerState) (b : Bool) (c : Controls) (d : ℚ) :
    (moveStage g s b c d).walking = s.walking := by
  simp [moveStage, apply_ite PlayerState.walking, ite_self]

theorem moveStage_sprinting (g : Geom) (s : PlayerState) (b : Bool) (c : Controls) (d : ℚ) :
    (moveStage g s b c d).sprinting = s.sprinting := by
  simp [moveStage, apply_ite PlayerState.sprinting, ite_self]

theorem moveStage_jumping (g : Geom) (s : PlayerState) (b : Bool) (c : Controls) (d : ℚ) :
    (moveStage g s b c d).jumping = s.jumping := by
  simp [moveStage, apply_ite PlayerState.jumping, ite_self]

theorem moveStage_falling (g : Geom) (s : PlayerState) (b : Bool) (c : Controls) (d : ℚ) :
    (moveStage g s b c d).falling = s.falling := by
  simp [moveStage, apply_ite PlayerState.falling, ite_self]

theorem moveStage_verticalVelocity (g : Geom) (s : PlayerState) (b : Bool) (c : Controls) (d : ℚ) :
    (moveStage g s b c d).verticalVelocity = s.verticalVelocity := by
  simp [moveStage, apply_ite PlayerState.verticalVelocity, ite_self]

theorem moveStage_walkToSprintTime (g : Geom) (s : PlayerState) (b : Bool) (c : Controls) (d : ℚ) :
    (moveStage g s b c d).walkToSprintTime = s.walkToSprintTime := by
  simp [moveStage, apply_ite PlayerState.walkToSprintTime, ite_self]

theorem moveStage_timeSinceGrounded (g : Geom) (s : PlayerState) (b : Bool) (c : Controls) (d : ℚ) :
    (moveStage g s b c d).timeSinceGrounded = s.timeSinceGrounded := by
  simp [moveStage, apply_ite PlayerState.timeSinceGrounded, ite_self]

theorem moveStage_currentAnimation (g : Geom) (s : PlayerState) (b : Bool) (c : Controls) (d : ℚ) :
    (moveStage g s b c d).currentAnimation = s.currentAnimation := by
  simp [moveStage, apply_ite PlayerState.currentAnimation, ite_self]

theorem moveStage_animations (g : Geom) (s : PlayerState) (b : Bool) (c : Controls) (d : ℚ) :
    (moveStage g s b c d).animations = s.animations := by
  simp [moveStage, apply_ite PlayerState.animations, ite_self]

theorem moveStage_feetOffset (g : Geom) (s : PlayerState) (b : Bool) (c : Controls) (d : ℚ) :
    (moveStage g s b c d).feetOffset = s.feetOffset := by
  simp [moveStage, apply_ite PlayerState.feetOffset, ite_self]

theorem moveStage_spawnPoint (g : Geom) (s : PlayerState) (b : Bool) (c : Controls) (d : ℚ) :
    (moveStage g s b c d).spawnPoint = s.spawnPoint := by
  simp [moveStage, apply_ite PlayerState.spawnPoint, ite_self]

theorem moveStage_rotY (g : Geom) (s : PlayerState) (b : Bool) (c : Controls) (d : ℚ) :
    (moveStage g s b c d).rotY =
      s.rotY + (if c.left then 3 * d else 0) - (if c.right then 3 * d else 0) := by
  simp only [moveStage]
  simp [apply_ite PlayerState.rotY, ite_self]
  split_ifs <;> ring

theorem moveStage_pos_moving (g : Geom) (s : PlayerState) (b : Bool) (c : Controls)
    (d : ℚ) (hm : (c.forward || c.backward) = true) :
    (moveStage g s b c d).pos = s.pos.add (Vec3.smul
      ((if s.sprinting then SPRINT_SPEED else WALK_SPEED) *
        (if b then 1 else AIR_CONTROL_FACTOR) * d)
      (g.rotateEuler s.rotX
        (s.rotY + (if c.left then 3 * d else 0) - (if c.right then 3 * d else 0))
        ⟨0, 0, if c.backward then -1 else if c.forward then 1 else 0⟩)) := by
  simp only [moveStage, hm]
  simp [apply_ite PlayerState.pos, apply_ite PlayerState.rotX, apply_ite PlayerState.rotY,
    apply_ite PlayerState.sprinting, ite_self]
  split_ifs <;> ring_nf

theorem moveStage_pos_still (g : Geom) (s : PlayerState) (b : Bool) (c : Controls)
    (d : ℚ) (hm : (c.forward || c.backward) = false) :
    (moveStage g s b c d).pos = s.pos := by
  simp [moveStage, hm, apply_ite PlayerState.pos, ite_self]

theorem verticalStage_rotX (s : PlayerState) (b : Bool) (fh : Option Hit) (d : ℚ) :
    (verticalStage s b fh d).rotX = s.rotX := by
  simp [verticalStage, apply_ite PlayerState.rotX, ite_self]

theorem verticalStage_rotY (s : PlayerState) (b : Bool) (fh : Option Hit) (d : ℚ) :
    (verticalStage s b fh d).rotY = s.rotY := by
  simp [verticalStage, apply_ite PlayerState.rotY, ite_self]

theorem verticalStage_idle (s : PlayerState) (b : Bool) (fh : Option Hit) (d : ℚ) :
    (verticalStage s b fh d).idle = s.idle := by
  simp [verticalStage, apply_ite PlayerState.idle, ite_self]

theorem verticalStage_walking (s : PlayerState) (b : Bool) (fh : Option Hit) (d : ℚ) :
    (verticalStage s b fh d).walking = s.walking := by
  simp [verticalStage, apply_ite PlayerState.walking, ite_self]

theorem verticalStage_sprinting (s : PlayerState) (b : Bool) (fh : Option Hit) (d : ℚ) :
    (verticalStage s b fh d).sprinting = s.sprinting := by
  simp [verticalStage, apply_ite PlayerState.sprinting, ite_self]

theorem verticalStage_jumping (s : PlayerState) (b : Bool) (fh : Option Hit) (d : ℚ) :
    (verticalStage s b fh d).jumping = s.jumping := by
  simp [verticalStage, apply_ite PlayerState.jumping, ite_self]

theorem verticalStage_falling (s : PlayerState) (b : Bool) (fh : Option Hit) (d : ℚ) :
    (verticalStage s b fh d).falling = s.falling := by
  simp [verticalStage, apply_ite PlayerState.falling, ite_self]

theorem verticalStage_walkToSprintTime (s : PlayerState) (b : Bool) (fh : Option Hit) (d : ℚ) :
    (verticalStage s b fh d).walkToSprintTime = s.walkToSprintTime := by
  simp [verticalStage, apply_ite PlayerState.walkToSprintTime, ite_self]

theorem verticalStage_timeSinceGrounded (s : PlayerState) (b : Bool) (fh : Option Hit) (d : ℚ) :
    (verticalStage s b fh d).timeSinceGrounded = s.timeSinceGrounded := by
  simp [verticalStage, apply_ite PlayerState.timeSinceGrounded, ite_self]

theorem verticalStage_currentAnimation (s : PlayerState) (b : Bool) (fh : Option Hit) (d : ℚ) :
    (verticalStage s b fh d).currentAnimation = s.currentAnimation := by
  simp [verticalStage, apply_ite PlayerState.currentAnimation, ite_self]

theorem verticalStage_animations (s : PlayerState) (b : Bool) (fh : Option Hit) (d : ℚ) :
    (verticalStage s b fh d).animations = s.animations := by
  simp [verticalStage, apply_ite PlayerState.animations, ite_self]

theorem verticalStage_feetOffset (s : PlayerState) (b : Bool) (fh : Option Hit) (d : ℚ) :
    (verticalStage s b fh d).feetOffset = s.feetOffset := by
  simp [verticalStage, apply_ite PlayerState.feetOffset, ite_self]

theorem verticalStage_spawnPoint (s : PlayerState) (b : Bool) (fh : Option Hit) (d : ℚ) :
    (verticalStage s b fh d).spawnPoint = s.spawnPoint := by
  simp [verticalStage, apply_ite PlayerState.spawnPoint, ite_self]

theorem verticalStage_pos_x (s : PlayerState) (b : Bool) (fh : Option Hit) (d : ℚ) :
    (verticalStage s b fh d).pos.x = s.pos.x := by
  simp [verticalStage, apply_ite PlayerState.pos, apply_ite Vec3.x, ite_self]

theorem verticalStage_pos_z (s : PlayerState) (b : Bool) (fh : Option Hit) (d : ℚ) :
    (verticalStage s b fh d).pos.z = s.pos.z := by
  simp [verticalStage, apply_ite PlayerState.pos, apply_ite Vec3.z, ite_self]

theorem verticalStage_vv_lower (s : PlayerState) (b : Bool) (fh : Option Hit) (d : ℚ) :
    TERMINAL_VELOCITY ≤ (verticalStage s b fh d).verticalVelocity := by
  simp only [verticalStage]
  simp [apply_ite PlayerState.verticalVelocity, ite_self]
  split_ifs <;> simp_all [TERMINAL_VELOCITY] <;> linarith

theorem verticalStage_vv_le_jump (s : PlayerState) (b : Bool) (fh : Option Hit) (d : ℚ)
    (h8 : s.verticalVelocity = JUMP_FORCE) (hd : 0 ≤ d) :
    (verticalStage s b fh d).verticalVelocity ≤ JUMP_FORCE := by
  simp only [verticalStage]
  simp [apply_ite PlayerState.verticalVelocity, ite_self, h8]
  split_ifs <;> simp_all [TERMINAL_VELOCITY, JUMP_FORCE, GRAVITY] <;> linarith

theorem verticalStage_snap (s : PlayerState) (fh : Option Hit) (d : ℚ) (hit : Hit)
    (hneg : s.verticalVelocity + GRAVITY * d < 0) (hfh : fh = some hit) :
    (verticalStage s true fh d).verticalVelocity = 0 ∧
    (verticalStage s true fh d).pos.y = hit.point.y + s.feetOffset := by
  simp only [verticalStage, hfh]
  constructor <;>
  · simp [apply_ite PlayerState.verticalVelocity, apply_ite PlayerState.pos,
      apply_ite PlayerState.feetOffset, apply_ite Vec3.y, ite_self, Option.elim]
    split_ifs <;> simp_all [TERMINAL_VELOCITY] <;> linarith

theorem animStage_pos (s : PlayerState) (b : Bool) (c : Controls) (d : ℚ) :
    (animStage s b c d).pos = s.pos := by
  simp [animStage, apply_ite PlayerState.pos, switchAnimation'_pos, ite_self]

theorem animStage_rotX (s : PlayerState) (b : Bool) (c : Controls) (d : ℚ) :
    (animStage s b c d).rotX = s.rotX := by
  simp [animStage, apply_ite PlayerState.rotX, switchAnimation'_rotX, ite_self]

theorem animStage_rotY (s : PlayerState) (b : Bool) (c : Controls) (d : ℚ) :
    (animStage s b c d).rotY = s.rotY := by
  simp [animStage, apply_ite PlayerState.rotY, switchAnimation'_rotY, ite_self]

theorem animStage_verticalVelocity (s : PlayerState) (b : Bool) (c : Controls) (d : ℚ) :
    (animStage s b c d).verticalVelocity = s.verticalVelocity := by
  simp [animStage, apply_ite PlayerState.verticalVelocity, switchAnimation'_verticalVelocity, ite_self]

theorem animStage_timeSinceGrounded (s : PlayerState) (b : Bool) (c : Controls) (d : ℚ) :
    (animStage s b c d).timeSinceGrounded = s.timeSinceGrounded := by
  simp [animStage, apply_ite PlayerState.timeSinceGrounded, switchAnimation'_timeSinceGrounded, ite_self]

theorem animStage_jumping (s : PlayerState) (b : Bool) (c : Controls) (d : ℚ) :
    (animStage s b c d).jumping = s.jumping := by
  simp [animStage, apply_ite PlayerState.jumping, switchAnimation'_jumping, ite_self]

theorem animStage_falling (s : PlayerState) (b : Bool) (c : Controls) (d : ℚ) :
    (animStage s b c d).falling = s.falling := by
  simp [animStage, apply_ite PlayerState.falling, switchAnimation'_falling, ite_self]

theorem animStage_animations (s : PlayerState) (b : Bool) (c : Controls) (d : ℚ) :
    (animStage s b c d).animations = s.animations := by
  simp [animStage, apply_ite PlayerState.animations, switchAnimation'_animations, ite_self]

theorem animStage_feetOffset (s : PlayerState) (b : Bool) (c : Controls) (d : ℚ) :
    (animStage s b c d).feetOffset = s.feetOffset := by
  simp [animStage, apply_ite PlayerState.feetOffset, switchAnimation'_feetOffset, ite_self]

theorem animStage_spawnPoint (s : PlayerState) (b : Bool) (c : Controls) (d : ℚ) :
    (animStage s b c d).spawnPoint = s.spawnPoint := by
  simp [animStage, apply_ite PlayerState.spawnPoint, switchAnimation'_spawnPoint, ite_self]

theorem animStage_airborne_sprinting (s : PlayerState) (c : Controls) (d : ℚ) :
    (animStage s false c d).sprinting = s.sprinting := by
  simp [animStage, apply_ite PlayerState.sprinting, switchAnimation'_sprinting, ite_self]

theorem animStage_airborne_walkToSprintTime (s : PlayerState) (c : Controls) (d : ℚ) :
    (animStage s false c d).walkToSprintTime = s.walkToSprintTime := by
  simp [animStage, apply_ite PlayerState.walkToSprintTime, switchAnimation'_walkToSprintTime, ite_self]

theorem animStage_airborne_idle (s : PlayerState) (c : Controls) (d : ℚ) :
    (animStage s false c d).idle = s.idle := by
  simp [animStage, apply_ite PlayerState.idle, switchAnimation'_idle, ite_self]

theorem animStage_airborne_walking (s : PlayerState) (c : Controls) (d : ℚ) :
    (animStage s false c d).walking = s.walking := by
  simp [animStage, apply_ite PlayerState.walking, switchAnimation'_walking, ite_self]

theorem animStage_gms_sprinting (s : PlayerState) (c : Controls) (d : ℚ)
    (hm : (c.forward || c.backward) = true) (hs : s.sprinting = true) :
    (animStage s true c d).sprinting = true ∧
    (animStage s true c d).walkToSprintTime = s.walkToSprintTime := by
  simp only [animStage, hm, hs]
  constructor <;>
  · simp [apply_ite PlayerState.sprinting, apply_ite PlayerState.walkToSprintTime,
      switchAnimation'_sprinting, switchAnimation'_walkToSprintTime, ite_self, hs]

theorem animStage_gms_anim (s : PlayerState) (c : Controls) (d : ℚ)
    (hm : (c.forward || c.backward) = true) (hs : s.sprinting = true)
    (hmem : "sprint" ∈ s.animations) :
    (animStage s true c d).currentAnimation = some "sprint" := by
  simp only [animStage, hm, hs]
  simp [apply_ite PlayerState.currentAnimation, apply_ite PlayerState.animations,
    apply_ite PlayerState.sprinting, switchAnimation'_currentAnimation_of_mem,
    switchAnimation'_animations, switchAnimation'_sprinting, hmem, ite_self, bne_iff_ne]
  split_ifs <;> simp_all [switchAnimation'_currentAnimation_of_mem]

theorem animStage_grounded_anim (s : PlayerState) (c : Controls) (d : ℚ)
    (hi : "idle" ∈ s.animations) (hwk : "walk" ∈ s.animations)
    (hsp : "sprint" ∈ s.animations) :
    (animStage s true c d).currentAnimation ≠ some "jump" ∧
    ((animStage s true c d).currentAnimation = some "idle" ∨
     (animStage s true c d).currentAnimation = some "walk" ∨
     (animStage s true c d).currentAnimation = some "sprint") := by
  constructor <;>
  · simp only [animStage]
    simp [apply_ite PlayerState.currentAnimation, apply_ite PlayerState.animations,
      apply_ite PlayerState.sprinting, apply_ite PlayerState.walkToSprintTime,
      switchAnimation'_currentAnimation_of_mem, switchAnimation'_animations,
      switchAnimation'_sprinting, switchAnimation'_walkToSprintTime,
      hi, hwk, hsp, ite_self, bne_iff_ne]
    split_ifs <;> simp_all [switchAnimation'_currentAnimation_of_mem]

/-! ### Vertical-velocity bounds (claim C3) -/

/-- After the core update the vertical velocity never lies below the
terminal-velocity clamp. -/
theorem playerUpdateCore_vv_lower (g : Geom) (w : World) (s : PlayerState)
    (delta : ℚ) (c : Controls) :
    TERMINAL_VELOCITY ≤ (playerUpdateCore g w s delta c).verticalVelocity := by
  simp only [playerUpdateCore, animStage_verticalVelocity]
  exact verticalStage_vv_lower _ _ _ _

/-- The full update (with the void fail-safe) obeys the same lower bound:
a reset restores the spawn settle velocity `-1 ≥ -45`. -/
theorem playerUpdate_vv_lower (g : Geom) (w : World) (s : PlayerState)
    (delta : ℚ) (c : Controls) :
    TERMINAL_VELOCITY ≤ (playerUpdate g w s delta c).verticalVelocity := by
  simp only [playerUpdate]
  split
  · simp [resetPlayer, switchAnimation'_verticalVelocity, SPAWN_INITIAL_VELOCITY,
      TERMINAL_VELOCITY]
  · exact playerUpdateCore_vv_lower g w s delta c

/-- On a jump frame the core's vertical velocity cannot exceed the jump
impulse for nonnegative `delta`. -/
theorem playerUpdateCore_vv_jump_upper (g : Geom) (w : World) (s : PlayerState)
    (delta : ℚ) (c : Controls) (hg : groundedAt w s = true) (hj : c.jump = true)
    (hd : 0 ≤ delta) :
    (playerUpdateCore g w s delta c).verticalVelocity ≤ JUMP_FORCE := by
  simp only [playerUpdateCore, hg, hj, animStage_verticalVelocity]
  refine verticalStage_vv_le_jump _ _ _ _ ?_ hd
  rw [moveStage_verticalVelocity, jumpStage_verticalVelocity]
  simp [hj]

/-- C3: after every frame update `verticalVelocity` stays in
`[TERMINAL_VELOCITY, ∞)`, and immediately after a jump is triggered
(grounded with jump input, nonnegative frame time) it does not exceed
`JUMP_FORCE`. -/
theorem C3_verticalVelocity_bounds (g : Geom) (w : World) (s : PlayerState)
    (delta : ℚ) (c : Controls) :
    TERMINAL_VELOCITY ≤ (playerUpdate g w s delta c).verticalVelocity ∧
    (groundedAt w s = true → c.jump = true → 0 ≤ delta →
      (playerUpdate g w s delta c).verticalVelocity ≤ JUMP_FORCE) := by
  constructor
  · exact playerUpdate_vv_lower g w s delta c
  · intro hg hj hd
    simp only [playerUpdate]
    split
    · norm_num [resetPlayer, switchAnimation'_verticalVelocity, SPAWN_INITIAL_VELOCITY,
        JUMP_FORCE]
    · exact playerUpdateCore_vv_jump_upper g w s delta c hg hj hd

/-- Witness for C3 at a concrete grounded jump frame. -/
theorem C3_witness :
    groundedAt worldW playerW = true ∧
    TERMINAL_VELOCITY ≤ (playerUpdate geomW worldW playerW 0.2 ctrlFwdJump).verticalVelocity ∧
    (playerUpdate geomW worldW playerW 0.2 ctrlFwdJump).verticalVelocity ≤ JUMP_FORCE := by
  refine ⟨by with_unfolding_all decide,
    (C3_verticalVelocity_bounds geomW worldW playerW 0.2 ctrlFwdJump).1,
    (C3_verticalVelocity_bounds geomW worldW playerW 0.2 ctrlFwdJump).2
      (by with_unfolding_all decide) (by with_unfolding_all decide)
      (by with_unfolding_all decide)⟩

/-! ### Animation switching guarantees (claim C8) -/

/-- C8: the single cross-fade entry point `_switchAnimation` (i) warns and
leaves the state unchanged when the requested clip name is not loaded,
(ii) is a silent no-op when the requested clip is already current, and
(iii) on a real switch makes the clip current, configures one-shot
behaviour exactly for the `jump` clip, and never marks any other clip
one-shot (all other clips keep looping). -/
theorem C8_switchAnimation_guarantees (s : PlayerState) (name : String) (fade : ℚ) :
    (name ∉ s.animations → switchAnimation s name fade = (s, true)) ∧
    (name ∈ s.animations → s.currentAnimation = some name →
      switchAnimation s name fade = (s, false)) ∧
    (name ∈ s.animations → s.currentAnimation ≠ some name →
      (switchAnimation s name fade).1.currentAnimation = some name ∧
      (name = "jump" → "jump" ∈ (switchAnimation s name fade).1.loopOnceClips) ∧
      (∀ cl, cl ≠ "jump" →
        (cl ∈ (switchAnimation s name fade).1.loopOnceClips ↔ cl ∈ s.loopOnceClips))) := by
  refine ⟨fun hn => ?_, fun hm hc => ?_, fun hm hc => ?_⟩
  · simp [switchAnimation, hn]
  · simp [switchAnimation, hm, hc]
  · refine ⟨?_, ?_, ?_⟩
    · simp [switchAnimation, hm, hc]
    · intro hj
      subst hj
      simp only [switchAnimation, if_pos hm, if_neg hc]
      split
      · simp
      · next h =>
        simp only [not_and, not_not, forall_const] at h
        simpa using h
    · intro cl hcl
      simp only [switchAnimation, if_pos hm, if_neg hc]
      split
      · next h =>
        simp only [List.mem_cons]
        constructor
        · rintro (he | hmem)
          · exact absurd (he.trans h.1) hcl
          · exact hmem
        · exact Or.inr
      · simp

/-- Witness for C8: all three guarantees at concrete inputs. -/
theorem C8_witness :
    switchAnimation playerW "flip" 0.1 = (playerW, true) ∧
    switchAnimation playerW "sprint" 0.1 = (playerW, false) ∧
    (switchAnimation playerW "jump" 0.1).1.currentAnimation = some "jump" ∧
    "jump" ∈ (switchAnimation playerW "jump" 0.1).1.loopOnceClips ∧
    ("walk" ∈ (switchAnimation playerW "jump" 0.1).1.loopOnceClips ↔
      "walk" ∈ playerW.loopOnceClips) := by
  refine ⟨(C8_switchAnimation_guarantees playerW "flip" 0.1).1 (by with_unfolding_all decide),
    (C8_switchAnimation_guarantees playerW "sprint" 0.1).2.1 (by with_unfolding_all decide)
      (by with_unfolding_all decide), ?_, ?_, ?_⟩
  · exact ((C8_switchAnimation_guarantees playerW "jump" 0.1).2.2
      (by with_unfolding_all decide) (by with_unfolding_all decide)).1
  · exact ((C8_switchAnimation_guarantees playerW "jump" 0.1).2.2
      (by with_unfolding_all decide) (by with_unfolding_all decide)).2.1 rfl
  · exact ((C8_switchAnimation_guarantees playerW "jump" 0.1).2.2
      (by with_unfolding_all decide) (by with_unfolding_all decide)).2.2 "walk"
      (by with_unfolding_all decide)

/-! ### Per-frame characterization lemmas for `Player.update` -/

/-- When the void fail-safe does not trip, the full update is the core
update. -/
theorem playerUpdate_eq_core (g : Geom) (w : World) (s : PlayerState)
    (delta : ℚ) (c : Controls)
    (hv : ¬ (playerUpdateCore g w s delta c).pos.y < -50) :
    playerUpdate g w s delta c = playerUpdateCore g w s delta c := by
  simp [playerUpdate, hv]

/-- The core update never touches the loaded animation map, the spawn
point, or the feet offset. -/
theorem playerUpdateCore_preserves_static (g : Geom) (w : World) (s : PlayerState)
    (delta : ℚ) (c : Controls) :
    (playerUpdateCore g w s delta c).animations = s.animations ∧
    (playerUpdateCore g w s delta c).spawnPoint = s.spawnPoint ∧
    (playerUpdateCore g w s delta c).feetOffset = s.feetOffset := by
  simp only [playerUpdateCore]
  refine ⟨?_, ?_, ?_⟩
  · rw [animStage_animations, verticalStage_animations, moveStage_animations,
      jumpStage_animations, leaveGroundStage_animations, groundStage_animations]
  · rw [animStage_spawnPoint, verticalStage_spawnPoint, moveStage_spawnPoint,
      jumpStage_spawnPoint, leaveGroundStage_spawnPoint, groundStage_spawnPoint]
  · rw [animStage_feetOffset, verticalStage_feetOffset, moveStage_feetOffset,
      jumpStage_feetOffset, leaveGroundStage_feetOffset, groundStage_feetOffset]

/-- Neither does the full update (a void reset also keeps them). -/
theorem playerUpdate_preserves_static (g : Geom) (w : World) (s : PlayerState)
    (delta : ℚ) (c : Controls) :
    (playerUpdate g w s delta c).animations = s.animations ∧
    (playerUpdate g w s delta c).spawnPoint = s.spawnPoint ∧
    (playerUpdate g w s delta c).feetOffset = s.feetOffset := by
  simp only [playerUpdate]
  split
  · simp [resetPlayer, switchAnimation'_animations, switchAnimation'_spawnPoint,
      switchAnimation'_feetOffset, playerUpdateCore_preserves_static]
  · exact playerUpdateCore_preserves_static g w s delta c

/-- On an airborne frame (the downward ray reports no close hit) the
sprint flag and the walk-to-sprint ramp timer are untouched and the
grounded stopwatch advances by `delta`. -/
theorem playerUpdateCore_airborne (g : Geom) (w : World) (s : PlayerState)
    (delta : ℚ) (c : Controls) (hg : groundedAt w s = false) :
    (playerUpdateCore g w s delta c).sprinting = s.sprinting ∧
    (playerUpdateCore g w s delta c).walkToSprintTime = s.walkToSprintTime ∧
    (playerUpdateCore g w s delta c).timeSinceGrounded = s.timeSinceGrounded + delta := by
  simp only [playerUpdateCore, hg]
  rw [jumpStage_eq_of_not _ _ _ (by simp)]
  refine ⟨?_, ?_, ?_⟩
  · rw [animStage_airborne_sprinting, verticalStage_sprinting, moveStage_sprinting,
      leaveGroundStage_sprinting, groundStage_sprinting]
  · rw [animStage_airborne_walkToSprintTime, verticalStage_walkToSprintTime,
      moveStage_walkToSprintTime, leaveGroundStage_walkToSprintTime,
      groundStage_walkToSprintTime]
  · rw [animStage_timeSinceGrounded, verticalStage_timeSinceGrounded,
      moveStage_timeSinceGrounded, leaveGroundStage_timeSinceGrounded,
      groundStage_timeSinceGrounded]
    simp

/-- A grounded jump frame with forward input held preserves the sprint
flag and the ramp timer and raises the jumping flag. -/
theorem playerUpdateCore_jump_frame (g : Geom) (w : World) (s : PlayerState)
    (delta : ℚ) (c : Controls) (hg : groundedAt w s = true) (hj : c.jump = true)
    (hf : c.forward = true) (hs : s.sprinting = true) :
    (playerUpdateCore g w s delta c).sprinting = true ∧
    (playerUpdateCore g w s delta c).walkToSprintTime = s.walkToSprintTime ∧
    (playerUpdateCore g w s delta c).jumping = true := by
  simp only [playerUpdateCore, hg, Bool.not_true, Bool.false_and, leaveGroundStage_eq_false]
  have hm : (c.forward || c.backward) = true := by simp [hf]
  have hsX : (verticalStage (moveStage g (jumpStage (groundStage s true delta) true c)
      true c delta) true ((hitsOf w s).head?) delta).sprinting = true := by
    rw [verticalStage_sprinting, moveStage_sprinting, jumpStage_sprinting,
      groundStage_sprinting]
    exact hs
  refine ⟨(animStage_gms_sprinting _ c delta hm hsX).1, ?_, ?_⟩
  · rw [(animStage_gms_sprinting _ c delta hm hsX).2, verticalStage_walkToSprintTime,
      moveStage_walkToSprintTime, jumpStage_walkToSprintTime, groundStage_walkToSprintTime]
  · rw [animStage_jumping, verticalStage_jumping, moveStage_jumping, jumpStage_jumping]
    simp [hj]

/-- A grounded frame with forward held, no jump input, and the sprint
flag set keeps sprinting, selects the sprint clip, and does not touch the
ramp timer. -/
theorem playerUpdateCore_sprint_landing (g : Geom) (w : World) (s : PlayerState)
    (delta : ℚ) (c : Controls) (hg : groundedAt w s = true) (hf : c.forward = true)
    (hj : c.jump = false) (hs : s.sprinting = true) (hmem : "sprint" ∈ s.animations) :
    (playerUpdateCore g w s delta c).sprinting = true ∧
    (playerUpdateCore g w s delta c).currentAnimation = some "sprint" ∧
    (playerUpdateCore g w s delta c).walkToSprintTime = s.walkToSprintTime := by
  simp only [playerUpdateCore, hg, Bool.not_true, Bool.false_and, leaveGroundStage_eq_false]
  rw [jumpStage_eq_of_not _ _ _ (by simp [hj])]
  have hm : (c.forward || c.backward) = true := by simp [hf]
  have hsX : (verticalStage (moveStage g (groundStage s true delta) true c delta)
      true ((hitsOf w s).head?) delta).sprinting = true := by
    rw [verticalStage_sprinting, moveStage_sprinting, groundStage_sprinting]
    exact hs
  have hmemX : "sprint" ∈ (verticalStage (moveStage g (groundStage s true delta)
      true c delta) true ((hitsOf w s).head?) delta).animations := by
    rw [verticalStage_animations, moveStage_animations, groundStage_animations]
    exact hmem
  refine ⟨(animStage_gms_sprinting _ c delta hm hsX).1,
    animStage_gms_anim _ c delta hm hsX hmemX, ?_⟩
  rw [(animStage_gms_sprinting _ c delta hm hsX).2, verticalStage_walkToSprintTime,
    moveStage_walkToSprintTime, groundStage_walkToSprintTime]

/-- Yaw is turned by exactly `±3·delta` by the core update, whether
grounded or airborne. -/
theorem playerUpdateCore_rotY (g : Geom) (w : World) (s : PlayerState)
    (delta : ℚ) (c : Controls) :
    (playerUpdateCore g w s delta c).rotY =
      s.rotY + (if c.left then 3 * delta else 0) - (if c.right then 3 * delta else 0) := by
  simp only [playerUpdateCore]
  rw [animStage_rotY, verticalStage_rotY, moveStage_rotY, jumpStage_rotY,
    leaveGroundStage_rotY, groundStage_rotY]

set_option maxHeartbeats 4000000 in
/-- Horizontal displacement of a moving core frame: scaled by the sprint
or walk speed, by `delta`, and by the air-control factor exactly when not
grounded; the direction comes from the post-turn yaw. -/
theorem playerUpdateCore_pos_horizontal (g : Geom) (w : World) (s : PlayerState)
    (delta : ℚ) (c : Controls) (hm : (c.forward || c.backward) = true) :
    (playerUpdateCore g w s delta c).pos.x =
      s.pos.x + ((if s.sprinting then SPRINT_SPEED else WALK_SPEED) *
        (if groundedAt w s then 1 else AIR_CONTROL_FACTOR) * delta) *
        (g.rotateEuler (if groundedAt w s && (s.falling || s.jumping) then 0 else s.rotX)
          (s.rotY + (if c.left then 3 * delta else 0) - (if c.right then 3 * delta else 0))
          ⟨0, 0, if c.backward then -1 else if c.forward then 1 else 0⟩).x ∧
    (playerUpdateCore g w s delta c).pos.z =
      s.pos.z + ((if s.sprinting then SPRINT_SPEED else WALK_SPEED) *
        (if groundedAt w s then 1 else AIR_CONTROL_FACTOR) * delta) *
        (g.rotateEuler (if groundedAt w s && (s.falling || s.jumping) then 0 else s.rotX)
          (s.rotY + (if c.left then 3 * delta else 0) - (if c.right then 3 * delta else 0))
          ⟨0, 0, if c.backward then -1 else if c.forward then 1 else 0⟩).z := by
  simp only [playerUpdateCore]
  constructor
  · rw [animStage_pos, verticalStage_pos_x, moveStage_pos_moving _ _ _ _ _ hm,
      jumpStage_pos, leaveGroundStage_pos, groundStage_pos, jumpStage_rotX,
      leaveGroundStage_rotX, groundStage_rotX, jumpStage_rotY, leaveGroundStage_rotY,
      groundStage_rotY, jumpStage_sprinting, leaveGroundStage_sprinting,
      groundStage_sprinting]
    simp [Vec3.add, Vec3.smul]
  · rw [animStage_pos, verticalStage_pos_z, moveStage_pos_moving _ _ _ _ _ hm,
      jumpStage_pos, leaveGroundStage_pos, groundStage_pos, jumpStage_rotX,
      leaveGroundStage_rotX, groundStage_rotX, jumpStage_rotY, leaveGroundStage_rotY,
      groundStage_rotY, jumpStage_sprinting, leaveGroundStage_sprinting,
      groundStage_sprinting]
    simp [Vec3.add, Vec3.smul]

set_option maxHeartbeats 4000000 in
/-- A non-moving core frame leaves the horizontal position unchanged. -/
theorem playerUpdateCore_pos_still (g : Geom) (w : World) (s : PlayerState)
    (delta : ℚ) (c : Controls) (hm : (c.forward || c.backward) = false) :
    (playerUpdateCore g w s delta c).pos.x = s.pos.x ∧
    (playerUpdateCore g w s delta c).pos.z = s.pos.z := by
  simp only [playerUpdateCore]
  constructor
  · rw [animStage_pos, verticalStage_pos_x, moveStage_pos_still _ _ _ _ _ hm,
      jumpStage_pos, leaveGroundStage_pos, groundStage_pos]
  · rw [animStage_pos, verticalStage_pos_z, moveStage_pos_still _ _ _ _ _ hm,
      jumpStage_pos, leaveGroundStage_pos, groundStage_pos]

/-! ### Claim C10: air control scales translation only, never rotation -/

/-- C10 (amended): in any frame that does not trip the void fail-safe,
left/right input turns yaw by exactly `±3·delta` whether grounded or
airborne, while the forward/backward translation is scaled by the
air-control factor `0.6` exactly when airborne (and by the sprint/walk
speed and `delta`); without movement input the horizontal position is
unchanged. -/
theorem C10_air_control_scope (g : Geom) (w : World) (s : PlayerState)
    (delta : ℚ) (c : Controls)
    (hv : ¬ (playerUpdateCore g w s delta c).pos.y < -50) :
    (playerUpdate g w s delta c).rotY =
      s.rotY + (if c.left then 3 * delta else 0) - (if c.right then 3 * delta else 0) ∧
    ((c.forward || c.backward) = true →
      (playerUpdate g w s delta c).pos.x =
        s.pos.x + ((if s.sprinting then SPRINT_SPEED else WALK_SPEED) *
          (if groundedAt w s then 1 else AIR_CONTROL_FACTOR) * delta) *
          (g.rotateEuler (if groundedAt w s && (s.falling || s.jumping) then 0 else s.rotX)
            (s.rotY + (if c.left then 3 * delta else 0) - (if c.right then 3 * delta else 0))
            ⟨0, 0, if c.backward then -1 else if c.forward then 1 else 0⟩).x ∧
      (playerUpdate g w s delta c).pos.z =
        s.pos.z + ((if s.sprinting then SPRINT_SPEED else WALK_SPEED) *
          (if groundedAt w s then 1 else AIR_CONTROL_FACTOR) * delta) *
          (g.rotateEuler (if groundedAt w s && (s.falling || s.jumping) then 0 else s.rotX)
            (s.rotY + (if c.left then 3 * delta else 0) - (if c.right then 3 * delta else 0))
            ⟨0, 0, if c.backward then -1 else if c.forward then 1 else 0⟩).z) ∧
    ((c.forward || c.backward) = false →
      (playerUpdate g w s delta c).pos.x = s.pos.x ∧
      (playerUpdate g w s delta c).pos.z = s.pos.z) := by
  rw [playerUpdate_eq_core g w s delta c hv]
  exact ⟨playerUpdateCore_rotY g w s delta c,
    fun hm => playerUpdateCore_pos_horizontal g w s delta c hm,
    fun hm => playerUpdateCore_pos_still g w s delta c hm⟩

/-- A player deep in the void, used to exhibit the fail-safe frames. -/
def playerVoid : PlayerState := { playerW with pos := ⟨0, -100, 0⟩ }

def ctrlLeft : Controls := ⟨false, false, true, false, false, false⟩

/-- Counterexample to C10 as stated: on a frame that trips the void
fail-safe, the yaw does not change by `+3·delta` under left input — the
reset overwrites it with the respawn yaw. -/
theorem C10_counterexample :
    (playerUpdateCore geomW worldEmpty playerVoid 1 ctrlLeft).pos.y < -50 ∧
    ctrlLeft.left = true ∧
    (playerUpdate geomW worldEmpty playerVoid 1 ctrlLeft).rotY ≠ playerVoid.rotY + 3 * 1 := by
  with_unfolding_all decide

/-- Witness for C10 on a concrete airborne frame with forward and left
input. -/
theorem C10_witness :
    (¬ (playerUpdateCore geomW worldEmpty playerW 0.2
        ⟨true, false, true, false, false, false⟩).pos.y < -50) ∧
    (playerUpdate geomW worldEmpty playerW 0.2
        ⟨true, false, true, false, false, false⟩).rotY = playerW.rotY + 3 * 0.2 - 0 ∧
    (playerUpdate geomW worldEmpty playerW 0.2
        ⟨true, false, true, false, false, false⟩).pos.x =
      playerW.pos.x + (SPRINT_SPEED * AIR_CONTROL_FACTOR * 0.2) *
        (geomW.rotateEuler playerW.rotX (playerW.rotY + 3 * 0.2 - 0) ⟨0, 0, 1⟩).x := by
  have hv : ¬ (playerUpdateCore geomW worldEmpty playerW 0.2
      ⟨true, false, true, false, false, false⟩).pos.y < -50 := by
    with_unfolding_all decide
  have h := C10_air_control_scope geomW worldEmpty playerW 0.2
    ⟨true, false, true, false, false, false⟩ hv
  refine ⟨hv, ?_, ?_⟩
  · simpa using h.1
  · have hx := (h.2.1 (by with_unfolding_all decide)).1
    simpa [groundedAt, hitsOf, worldEmpty, playerW, geomW, SPRINT_SPEED,
      AIR_CONTROL_FACTOR] using hx

/-! ### Claim C7: void fall-through fail-safe -/

/-- `Player.reset()` field values, expanded. -/
theorem resetPlayer_fields (g : Geom) (s : PlayerState) :
    (resetPlayer g s).pos = s.spawnPoint ∧
    (resetPlayer g s).rotX = 0 ∧
    (resetPlayer g s).rotY = g.pi ∧
    (resetPlayer g s).verticalVelocity = SPAWN_INITIAL_VELOCITY ∧
    (resetPlayer g s).timeSinceGrounded = GROUNDED_BUFFER_TIME + 0.01 ∧
    (resetPlayer g s).idle = false ∧
    (resetPlayer g s).walking = false ∧
    (resetPlayer g s).sprinting = false ∧
    (resetPlayer g s).jumping = true ∧
    (resetPlayer g s).falling = true := by
  simp [resetPlayer, switchAnimation'_pos, switchAnimation'_rotX, switchAnimation'_rotY,
    switchAnimation'_verticalVelocity, switchAnimation'_timeSinceGrounded,
    switchAnimation'_idle, switchAnimation'_walking, switchAnimation'_sprinting,
    switchAnimation'_jumping, switchAnimation'_falling]

/-- C7 (amended): when a frame's computed vertical position drops below
the deep-void threshold `-50`, the update performs a full `reset()`:
teleport to the spawn point, vertical velocity restored to the spawn
settle value `-1` (not zero), the ground-movement flags cleared but the
airborne flags `jumping`/`falling` set (the character respawns falling
from altitude), the grounded stopwatch pushed past the debounce buffer —
recovered automatically rather than surfaced as an error. -/
theorem C7_void_failsafe (g : Geom) (w : World) (s : PlayerState)
    (delta : ℚ) (c : Controls)
    (hv : (playerUpdateCore g w s delta c).pos.y < -50) :
    playerUpdate g w s delta c = resetPlayer g (playerUpdateCore g w s delta c) ∧
    (playerUpdate g w s delta c).pos = s.spawnPoint ∧
    (playerUpdate g w s delta c).verticalVelocity = SPAWN_INITIAL_VELOCITY ∧
    (playerUpdate g w s delta c).idle = false ∧
    (playerUpdate g w s delta c).walking = false ∧
    (playerUpdate g w s delta c).sprinting = false ∧
    (playerUpdate g w s delta c).jumping = true ∧
    (playerUpdate g w s delta c).falling = true ∧
    (playerUpdate g w s delta c).timeSinceGrounded = GROUNDED_BUFFER_TIME + 0.01 := by
  have he : playerUpdate g w s delta c = resetPlayer g (playerUpdateCore g w s delta c) := by
    simp [playerUpdate, hv]
  have hf := resetPlayer_fields g (playerUpdateCore g w s delta c)
  have hsp := (playerUpdateCore_preserves_static g w s delta c).2.1
  refine ⟨he, ?_, ?_, ?_, ?_, ?_, ?_, ?_, ?_⟩ <;> rw [he]
  · rw [hf.1, hsp]
  · exact hf.2.2.2.1
  · exact hf.2.2.2.2.2.1
  · exact hf.2.2.2.2.2.2.1
  · exact hf.2.2.2.2.2.2.2.1
  · exact hf.2.2.2.2.2.2.2.2.1
  · exact hf.2.2.2.2.2.2.2.2.2
  · exact hf.2.2.2.2.1

/-- Witness for C7 at a concrete deep-void frame. -/
theorem C7_witness :
    (playerUpdateCore geomW worldEmpty playerVoid 0.2 ctrlNone).pos.y < -50 ∧
    (playerUpdate geomW worldEmpty playerVoid 0.2 ctrlNone).pos = playerVoid.spawnPoint ∧
    (playerUpdate geomW worldEmpty playerVoid 0.2 ctrlNone).jumping = true := by
  have hv : (playerUpdateCore geomW worldEmpty playerVoid 0.2 ctrlNone).pos.y < -50 := by
    with_unfolding_all decide
  have h := C7_void_failsafe geomW worldEmpty playerVoid 0.2 ctrlNone hv
  exact ⟨hv, h.2.1, h.2.2.2.2.2.2.1⟩

/-- Counterexample to C7 as stated: the fail-safe reset does not zero
the velocity (it restores the spawn settle value `-1`), and it does not
clear the airborne flags — it sets `jumping` and `falling`. -/
theorem C7_counterexample :
    (playerUpdateCore geomW worldEmpty playerVoid 1 ctrlNone).pos.y < -50 ∧
    (playerUpdate geomW worldEmpty playerVoid 1 ctrlNone).verticalVelocity ≠ 0 ∧
    (playerUpdate geomW worldEmpty playerVoid 1 ctrlNone).jumping = true ∧
    (playerUpdate geomW worldEmpty playerVoid 1 ctrlNone).falling = true := by
  with_unfolding_all decide

/-! ### Claim C9: reset leaves the debounced grounded signal false -/

/-- The camera update never changes the mode. -/
theorem cameraUpdate_mode (g : Geom) (p : PlayerState) (cam : CameraState)
    (delta : ℚ) (fi ml : Bool) :
    (cameraUpdate g p cam delta fi ml).mode = cam.mode := by
  simp only [cameraUpdate]
  split <;> split <;> rfl

/-- `checkLanding` with a false grounded signal is the identity. -/
theorem checkLanding_false (g : Geom) (p : PlayerState) (cam : CameraState) :
    checkLanding g p cam false = cam := by
  simp [checkLanding]

/-- C9: after `Player.reset()` (and identically after construction, which
initializes `timeSinceGrounded` with the same `GROUNDED_BUFFER_TIME +
0.01`), the debounced grounded signal is already false, and stays false
through a first frame without ground contact, so `checkLanding` cannot
leave `CINEMATIC_FALL` on that frame. -/
theorem C9_reset_debounce_false (g : Geom) (w : World) (s : PlayerState)
    (cam : CameraState) (delta : ℚ) (c : Controls)
    (hg : groundedAt w (resetPlayer g s) = false)
    (hd : 0 ≤ delta)
    (hcf : cam.mode = CamMode.CINEMATIC_FALL) :
    GROUNDED_BUFFER_TIME < (resetPlayer g s).timeSinceGrounded ∧
    GROUNDED_BUFFER_TIME < (playerUpdate g w (resetPlayer g s) delta c).timeSinceGrounded ∧
    (frame g w ⟨resetPlayer g s, cam⟩ delta c).camera.mode = CamMode.CINEMATIC_FALL := by
  have h1 : (resetPlayer g s).timeSinceGrounded = GROUNDED_BUFFER_TIME + 0.01 :=
    (resetPlayer_fields g s).2.2.2.2.1
  have hbuf : GROUNDED_BUFFER_TIME < (resetPlayer g s).timeSinceGrounded := by
    rw [h1]; norm_num [GROUNDED_BUFFER_TIME]
  have h2 : GROUNDED_BUFFER_TIME <
      (playerUpdate g w (resetPlayer g s) delta c).timeSinceGrounded := by
    simp only [playerUpdate]
    split
    · rw [(resetPlayer_fields g _).2.2.2.2.1]; norm_num [GROUNDED_BUFFER_TIME]
    · rw [(playerUpdateCore_airborne g w (resetPlayer g s) delta c hg).2.2, h1]
      norm_num [GROUNDED_BUFFER_TIME]
      linarith
  refine ⟨hbuf, h2, ?_⟩
  have hsig : decide ((playerUpdate g w (resetPlayer g s) delta c).timeSinceGrounded
      < 0.2) = false := by
    simp only [decide_eq_false_iff_not, not_lt]
    have : GROUNDED_BUFFER_TIME = (0.2 : ℚ) := rfl
    linarith [h2]
  simp only [frame, hsig, checkLanding_false, cameraUpdate_mode]
  exact hcf

/-- A camera state in cinematic-fall mode used by concrete runs. -/
def camCF : CameraState :=
  { mode := CamMode.CINEMATIC_FALL, distance := 0, polar := 1, azimuth := 3.14,
    cinematicTimer := 0, smoothedLookAt := ⟨0, 0, 0⟩, cameraPos := ⟨0, 0, 0⟩,
    mapCenter := ⟨0, 0, 0⟩ }

/-- Witness for C9: a concrete reset state over an empty world keeps the
camera in cinematic fall on the first frame. -/
theorem C9_witness :
    GROUNDED_BUFFER_TIME < (resetPlayer geomW playerW).timeSinceGrounded ∧
    (frame geomW worldEmpty ⟨resetPlayer geomW playerW, camCF⟩ 0.2 ctrlNone).camera.mode =
      CamMode.CINEMATIC_FALL := by
  have h := C9_reset_debounce_false geomW worldEmpty playerW camCF 0.2 ctrlNone
    (by with_unfolding_all decide) (by with_unfolding_all decide) rfl
  exact ⟨h.1, h.2.2⟩

/-! ### Claim C1: the camera mode transition is one-way -/

/-- Third-person mode is absorbing for `checkLanding`. -/
theorem checkLanding_TP (g : Geom) (p : PlayerState) (cam : CameraState) (b : Bool)
    (h : cam.mode = CamMode.THIRD_PERSON) :
    checkLanding g p cam b = cam := by
  simp [checkLanding, h]

/-- `checkLanding` fires on a true debounced grounded signal in
cinematic-fall mode. -/
theorem checkLanding_fires (g : Geom) (p : PlayerState) (cam : CameraState)
    (h : cam.mode = CamMode.CINEMATIC_FALL) :
    (checkLanding g p cam true).mode = CamMode.THIRD_PERSON := by
  simp [checkLanding, h]

/-- Third-person mode is absorbing for a whole frame. -/
theorem frame_mode_TP (g : Geom) (w : World) (sim : SimState) (delta : ℚ) (c : Controls)
    (h : sim.camera.mode = CamMode.THIRD_PERSON) :
    (frame g w sim delta c).camera.mode = CamMode.THIRD_PERSON := by
  simp only [frame, cameraUpdate_mode]
  rw [checkLanding_TP _ _ _ _ h]
  exact h

/-- Third-person mode is absorbing for any run of frames. -/
theorem runFrames_mode_TP (g : Geom) (w : World) :
    ∀ (L : List (ℚ × Controls)) (sim : SimState),
      sim.camera.mode = CamMode.THIRD_PERSON →
      (runFrames g w sim L).camera.mode = CamMode.THIRD_PERSON
  | [], sim, h => h
  | i :: rest, sim, h =>
    runFrames_mode_TP g w rest (frame g w sim i.1 i.2) (frame_mode_TP g w sim i.1 i.2 h)

/-- C1: starting in cinematic fall, on the first frame whose locomotion
update leaves the debounced grounded signal true (`timeSinceGrounded <
0.2` computed by that frame's `Player.update`, not the raw ray result),
the camera switches to third person within that same frame, and no later
run of frames (without a reset) ever returns it to cinematic fall. -/
theorem C1_camera_mode_one_way (g : Geom) (w : World) (sim : SimState)
    (delta : ℚ) (c : Controls) (L : List (ℚ × Controls))
    (hcf : sim.camera.mode = CamMode.CINEMATIC_FALL)
    (hsig : (playerUpdate g w sim.player delta c).timeSinceGrounded < 0.2) :
    (frame g w sim delta c).camera.mode = CamMode.THIRD_PERSON ∧
    (runFrames g w (frame g w sim delta c) L).camera.mode = CamMode.THIRD_PERSON := by
  have h1 : (frame g w sim delta c).camera.mode = CamMode.THIRD_PERSON := by
    simp only [frame, cameraUpdate_mode]
    rw [decide_eq_true hsig]
    exact checkLanding_fires g _ sim.camera hcf
  exact ⟨h1, runFrames_mode_TP g w L _ h1⟩

/-- Witness for C1: a concrete grounded first frame over the flat test
world, followed by two more frames. -/
theorem C1_witness :
    (playerUpdate geomW worldW playerW 0.2 ctrlFwd).timeSinceGrounded < 0.2 ∧
    (frame geomW worldW ⟨playerW, camCF⟩ 0.2 ctrlFwd).camera.mode = CamMode.THIRD_PERSON ∧
    (runFrames geomW worldW (frame geomW worldW ⟨playerW, camCF⟩ 0.2 ctrlFwd)
      [(0.2, ctrlFwd), (1, ctrlNone)]).camera.mode = CamMode.THIRD_PERSON := by
  have hsig : (playerUpdate geomW worldW playerW 0.2 ctrlFwd).timeSinceGrounded < 0.2 := by
    with_unfolding_all decide
  have h := C1_camera_mode_one_way geomW worldW ⟨playerW, camCF⟩ 0.2 ctrlFwd
    [(0.2, ctrlFwd), (1, ctrlNone)] rfl hsig
  exact ⟨hsig, h.1, h.2⟩

/-! ### Claim C6: reset is idempotent -/

/-- `Player.reset()` is idempotent. -/
theorem resetPlayer_idem (g : Geom) (s : PlayerState) :
    resetPlayer g (resetPlayer g s) = resetPlayer g s := by
  cases s
  simp only [resetPlayer, switchAnimation', switchAnimation]
  split_ifs <;> simp_all

/-- `GameCamera.reset()` is idempotent for a fixed target state. -/
theorem cameraReset_idem (g : Geom) (p : PlayerState) (cam : CameraState) :
    cameraReset g p (cameraReset g p cam) = cameraReset g p cam := by
  cases cam
  simp [cameraReset, cameraUpdate]

/-- C6: the controller's `restart()` (player reset followed by camera
reset) is idempotent on every state, and one application already yields
the spawn configuration: spawn position, spawn settle velocity,
cinematic-fall camera mode with `cinematicTimer = 0`, and the spawn flag
configuration (`jumping`/`falling` set, the rest cleared). -/
theorem C6_reset_idempotent (g : Geom) (sim : SimState) :
    resetBoth g (resetBoth g sim) = resetBoth g sim ∧
    (resetBoth g sim).player.pos = sim.player.spawnPoint ∧
    (resetBoth g sim).player.verticalVelocity = SPAWN_INITIAL_VELOCITY ∧
    (resetBoth g sim).player.idle = false ∧
    (resetBoth g sim).player.walking = false ∧
    (resetBoth g sim).player.sprinting = false ∧
    (resetBoth g sim).player.jumping = true ∧
    (resetBoth g sim).player.falling = true ∧
    (resetBoth g sim).camera.mode = CamMode.CINEMATIC_FALL ∧
    (resetBoth g sim).camera.cinematicTimer = 0 := by
  have hf := resetPlayer_fields g sim.player
  refine ⟨?_, ?_, hf.2.2.2.1, hf.2.2.2.2.2.1, hf.2.2.2.2.2.2.1, hf.2.2.2.2.2.2.2.1,
    hf.2.2.2.2.2.2.2.2.1, hf.2.2.2.2.2.2.2.2.2, ?_, ?_⟩
  · simp only [resetBoth]
    rw [resetPlayer_idem, cameraReset_idem]
  · exact hf.1
  · simp only [resetBoth]
    rw [cameraReset, cameraUpdate_mode]
  · simp [resetBoth, cameraReset, cameraUpdate]

/-! ### Claim C2: the sprint flag survives a jump -/

/-- Iterated `Player.update` with per-frame `(delta, controls)` inputs. -/
def runPlayer (g : Geom) (w : World) : PlayerState → List (ℚ × Controls) → PlayerState
  | s, [] => s
  | s, i :: rest => runPlayer g w (playerUpdate g w s i.1 i.2) rest

/-- The run stays airborne: before every frame of the list the ground
sensor reports no close hit, and no frame trips the void fail-safe. -/
def airborneRun (g : Geom) (w : World) : PlayerState → List (ℚ × Controls) → Bool
  | _, [] => true
  | s, i :: rest =>
      !groundedAt w s &&
      !decide ((playerUpdateCore g w s i.1 i.2).pos.y < -50) &&
      airborneRun g w (playerUpdate g w s i.1 i.2) rest

/-- Along an airborne run the sprint flag, the ramp timer and the
animation map are all untouched. -/
theorem airborneRun_preserves (g : Geom) (w : World) :
    ∀ (L : List (ℚ × Controls)) (s : PlayerState), airborneRun g w s L = true →
      (runPlayer g w s L).sprinting = s.sprinting ∧
      (runPlayer g w s L).walkToSprintTime = s.walkToSprintTime ∧
      (runPlayer g w s L).animations = s.animations
  | [], s, _ => ⟨rfl, rfl, rfl⟩
  | i :: rest, s, h => by
      rw [airborneRun] at h
      simp only [Bool.and_eq_true, Bool.not_eq_true', decide_eq_false_iff_not] at h
      obtain ⟨⟨hg, hv⟩, hrest⟩ := h
      have hupd : playerUpdate g w s i.1 i.2 = playerUpdateCore g w s i.1 i.2 :=
        playerUpdate_eq_core g w s i.1 i.2 hv
      have hair := playerUpdateCore_airborne g w s i.1 i.2 hg
      have hstat := playerUpdateCore_preserves_static g w s i.1 i.2
      have ih := airborneRun_preserves g w rest (playerUpdate g w s i.1 i.2) hrest
      refine ⟨?_, ?_, ?_⟩
      · rw [runPlayer, ih.1, hupd, hair.1]
      · rw [runPlayer, ih.2.1, hupd, hair.2.1]
      · rw [runPlayer, ih.2.2, hupd, hstat.1]

/-- C2: from any sprinting grounded state, a jump frame (grounded with
jump input, forward held), any airborne run, and a landing frame with
forward still held yield a post-landing state that is still sprinting,
with the sprint clip selected and the walk-to-sprint ramp timer exactly
as before the jump (not re-accumulated from zero). -/
theorem C2_sprint_persists_across_jump (g : Geom) (w : World) (s : PlayerState)
    (d0 : ℚ) (c0 : Controls) (L : List (ℚ × Controls)) (dL : ℚ) (cL : Controls)
    (hs : s.sprinting = true) (hmem : "sprint" ∈ s.animations)
    (hg0 : groundedAt w s = true) (hj0 : c0.jump = true) (hf0 : c0.forward = true)
    (hv0 : ¬ (playerUpdateCore g w s d0 c0).pos.y < -50)
    (hair : airborneRun g w (playerUpdate g w s d0 c0) L = true)
    (hgL : groundedAt w (runPlayer g w (playerUpdate g w s d0 c0) L) = true)
    (hfL : cL.forward = true) (hjL : cL.jump = false)
    (hvL : ¬ (playerUpdateCore g w (runPlayer g w (playerUpdate g w s d0 c0) L)
      dL cL).pos.y < -50) :
    (playerUpdate g w (runPlayer g w (playerUpdate g w s d0 c0) L) dL cL).sprinting
      = true ∧
    (playerUpdate g w (runPlayer g w (playerUpdate g w s d0 c0) L) dL cL).currentAnimation
      = some "sprint" ∧
    (playerUpdate g w (runPlayer g w (playerUpdate g w s d0 c0) L) dL cL).walkToSprintTime
      = s.walkToSprintTime := by
  have h1 : playerUpdate g w s d0 c0 = playerUpdateCore g w s d0 c0 :=
    playerUpdate_eq_core g w s d0 c0 hv0
  have hjf := playerUpdateCore_jump_frame g w s d0 c0 hg0 hj0 hf0 hs
  have hstat0 := playerUpdateCore_preserves_static g w s d0 c0
  have hchain := airborneRun_preserves g w L (playerUpdate g w s d0 c0) hair
  have hs2 : (runPlayer g w (playerUpdate g w s d0 c0) L).sprinting = true := by
    rw [hchain.1, h1, hjf.1]
  have hmem2 : "sprint" ∈ (runPlayer g w (playerUpdate g w s d0 c0) L).animations := by
    rw [hchain.2.2, h1, hstat0.1]; exact hmem
  have hland := playerUpdateCore_sprint_landing g w
    (runPlayer g w (playerUpdate g w s d0 c0) L) dL cL hgL hfL hjL hs2 hmem2
  have h2 : playerUpdate g w (runPlayer g w (playerUpdate g w s d0 c0) L) dL cL =
      playerUpdateCore g w (runPlayer g w (playerUpdate g w s d0 c0) L) dL cL :=
    playerUpdate_eq_core g w _ dL cL hvL
  refine ⟨by rw [h2, hland.1], by rw [h2, hland.2.1], ?_⟩
  rw [h2, hland.2.2, hchain.2.1, h1, hjf.2.1]

/-- Witness for C2: the concrete jump–fly–land run over the flat test
world (one jump frame, three airborne frames, one landing frame). -/
theorem C2_witness :
    (playerUpdate geomW worldW (runPlayer geomW worldW
        (playerUpdate geomW worldW playerW 0.2 ctrlFwdJump)
        [(0.2, ctrlFwd), (0.2, ctrlFwd), (0.2, ctrlFwd)]) 0.2 ctrlFwd).sprinting = true ∧
    (playerUpdate geomW worldW (runPlayer geomW worldW
        (playerUpdate geomW worldW playerW 0.2 ctrlFwdJump)
        [(0.2, ctrlFwd), (0.2, ctrlFwd), (0.2, ctrlFwd)]) 0.2 ctrlFwd).currentAnimation
      = some "sprint" ∧
    (playerUpdate geomW worldW (runPlayer geomW worldW
        (playerUpdate geomW worldW playerW 0.2 ctrlFwdJump)
        [(0.2, ctrlFwd), (0.2, ctrlFwd), (0.2, ctrlFwd)]) 0.2 ctrlFwd).walkToSprintTime
      = playerW.walkToSprintTime :=
  C2_sprint_persists_across_jump geomW worldW playerW 0.2 ctrlFwdJump
    [(0.2, ctrlFwd), (0.2, ctrlFwd), (0.2, ctrlFwd)] 0.2 ctrlFwd
    (by with_unfolding_all decide) (by with_unfolding_all decide)
    (by with_unfolding_all decide) (by with_unfolding_all decide)
    (by with_unfolding_all decide) (by with_unfolding_all decide)
    (by with_unfolding_all decide) (by with_unfolding_all decide)
    (by with_unfolding_all decide) (by with_unfolding_all decide)
    (by with_unfolding_all decide)

/-! ### Claim C4: landing behaviour -/

/-- A close first hit means the ground sensor reports grounded. -/
theorem groundedAt_of_hit (w : World) (s : PlayerState) (hit : Hit) (rest : List Hit)
    (hh : hitsOf w s = hit :: rest)
    (hd : hit.distance < RAYCAST_HEIGHT + s.feetOffset + GROUND_TOLERANCE) :
    groundedAt w s = true := by
  rw [groundedAt, hh]
  simpa using hd

/-- On a landing frame (close hit, descending after this frame's gravity,
no jump input) the vertical velocity is zeroed and the feet snap to the
contact height. -/
theorem playerUpdateCore_landing_snap (g : Geom) (w : World) (s : PlayerState)
    (delta : ℚ) (c : Controls) (hit : Hit) (rest : List Hit)
    (hh : hitsOf w s = hit :: rest)
    (hd : hit.distance < RAYCAST_HEIGHT + s.feetOffset + GROUND_TOLERANCE)
    (hv : s.verticalVelocity + GRAVITY * delta < 0)
    (hj : c.jump = false) :
    (playerUpdateCore g w s delta c).verticalVelocity = 0 ∧
    (playerUpdateCore g w s delta c).pos.y = hit.point.y + s.feetOffset := by
  have hg := groundedAt_of_hit w s hit rest hh hd
  simp only [playerUpdateCore, hg, Bool.not_true, Bool.false_and, leaveGroundStage_eq_false]
  rw [jumpStage_eq_of_not _ _ _ (by simp [hj])]
  have hvvX : (moveStage g (groundStage s true delta) true c delta).verticalVelocity
      = s.verticalVelocity := by
    rw [moveStage_verticalVelocity, groundStage_verticalVelocity]
  have hfeetX : (moveStage g (groundStage s true delta) true c delta).feetOffset
      = s.feetOffset := by
    rw [moveStage_feetOffset, groundStage_feetOffset]
  have hfh : (hitsOf w s).head? = some hit := by rw [hh]; rfl
  have hsnap := verticalStage_snap (moveStage g (groundStage s true delta) true c delta)
    ((hitsOf w s).head?) delta hit (by rw [hvvX]; exact hv) hfh
  constructor
  · rw [animStage_verticalVelocity]
    exact hsnap.1
  · rw [animStage_pos, hsnap.2, hfeetX]

/-- On a grounded frame without jump input the frame ends on the idle,
walk or sprint clip — never the jump clip (given those clips are
loaded). -/
theorem playerUpdateCore_landing_anim (g : Geom) (w : World) (s : PlayerState)
    (delta : ℚ) (c : Controls)
    (hg : groundedAt w s = true) (hj : c.jump = false)
    (hi : "idle" ∈ s.animations) (hwk : "walk" ∈ s.animations)
    (hsp : "sprint" ∈ s.animations) :
    (playerUpdateCore g w s delta c).currentAnimation ≠ some "jump" ∧
    ((playerUpdateCore g w s delta c).currentAnimation = some "idle" ∨
     (playerUpdateCore g w s delta c).currentAnimation = some "walk" ∨
     (playerUpdateCore g w s delta c).currentAnimation = some "sprint") := by
  simp only [playerUpdateCore, hg, Bool.not_true, Bool.false_and, leaveGroundStage_eq_false]
  rw [jumpStage_eq_of_not _ _ _ (by simp [hj])]
  have hiX : "idle" ∈ (verticalStage (moveStage g (groundStage s true delta) true c delta)
      true ((hitsOf w s).head?) delta).animations := by
    rw [verticalStage_animations, moveStage_animations, groundStage_animations]; exact hi
  have hwkX : "walk" ∈ (verticalStage (moveStage g (groundStage s true delta) true c delta)
      true ((hitsOf w s).head?) delta).animations := by
    rw [verticalStage_animations, moveStage_animations, groundStage_animations]; exact hwk
  have hspX : "sprint" ∈ (verticalStage (moveStage g (groundStage s true delta) true c delta)
      true ((hitsOf w s).head?) delta).animations := by
    rw [verticalStage_animations, moveStage_animations, groundStage_animations]; exact hsp
  exact animStage_grounded_anim _ c delta hiX hwkX hspX

/-- C4 (amended): when the downward ray's closest hit is within
`H + feetOffset + tolerance` (and no hit at all means not grounded), the
frame is grounded; if the gravity-integrated vertical velocity is
negative it is zeroed and the feet snap to the hit height plus
`feetOffset`; and the frame ends with the active clip no longer `jump`
but `idle`, `walk`, or `sprint` (sprint — not only idle/walk — when the
sticky sprint flag is set and movement is held), provided those clips are
loaded and the snap height is above the void threshold. -/
theorem C4_landing_behaviour (g : Geom) (w : World) (s : PlayerState)
    (delta : ℚ) (c : Controls) (hit : Hit) (rest : List Hit)
    (hh : hitsOf w s = hit :: rest)
    (hd : hit.distance < RAYCAST_HEIGHT + s.feetOffset + GROUND_TOLERANCE)
    (hv : s.verticalVelocity + GRAVITY * delta < 0)
    (hj : c.jump = false)
    (hsafe : -50 ≤ hit.point.y + s.feetOffset)
    (hi : "idle" ∈ s.animations) (hwk : "walk" ∈ s.animations)
    (hsp : "sprint" ∈ s.animations) :
    (∀ s' : PlayerState, hitsOf w s' = [] → groundedAt w s' = false) ∧
    groundedAt w s = true ∧
    (playerUpdate g w s delta c).verticalVelocity = 0 ∧
    (playerUpdate g w s delta c).pos.y = hit.point.y + s.feetOffset ∧
    (playerUpdate g w s delta c).currentAnimation ≠ some "jump" ∧
    ((playerUpdate g w s delta c).currentAnimation = some "idle" ∨
     (playerUpdate g w s delta c).currentAnimation = some "walk" ∨
     (playerUpdate g w s delta c).currentAnimation = some "sprint") := by
  have hg := groundedAt_of_hit w s hit rest hh hd
  have hsnap := playerUpdateCore_landing_snap g w s delta c hit rest hh hd hv hj
  have hnv : ¬ (playerUpdateCore g w s delta c).pos.y < -50 := by
    rw [hsnap.2]
    linarith
  have hupd := playerUpdate_eq_core g w s delta c hnv
  have hanim := playerUpdateCore_landing_anim g w s delta c hg hj hi hwk hsp
  refine ⟨fun s' h' => by rw [groundedAt, h'], hg, ?_, ?_, ?_, ?_⟩ <;> rw [hupd]
  · exact hsnap.1
  · exact hsnap.2
  · exact hanim.1
  · exact hanim.2

/-- A descending sprinting player one frame above contact, still showing
the jump clip. -/
def playerLanding : PlayerState :=
  { playerW with
      pos := ⟨0, 0.4, 0⟩,
      verticalVelocity := -4,
      currentAnimation := some "jump",
      jumping := true,
      timeSinceGrounded := 0.6 }

/-- Counterexample to C4 as stated: a landing frame with the sprint flag
set and forward held ends on the `sprint` clip, not on `idle` or `walk`
as the claim asserts. -/
theorem C4_counterexample :
    hitsOf worldW playerLanding = [⟨5, ⟨0, 0.4, 0⟩⟩] ∧
    (5 : ℚ) < RAYCAST_HEIGHT + playerLanding.feetOffset + GROUND_TOLERANCE ∧
    playerLanding.verticalVelocity + GRAVITY * 0.2 < 0 ∧
    (playerUpdate geomW worldW playerLanding 0.2 ctrlFwd).currentAnimation ≠ some "idle" ∧
    (playerUpdate geomW worldW playerLanding 0.2 ctrlFwd).currentAnimation ≠ some "walk" ∧
    (playerUpdate geomW worldW playerLanding 0.2 ctrlFwd).currentAnimation = some "sprint" := by
  with_unfolding_all decide

/-- Witness for C4 at a concrete non-sprinting landing frame. -/
theorem C4_witness :
    groundedAt worldW { playerLanding with sprinting := false } = true ∧
    (playerUpdate geomW worldW { playerLanding with sprinting := false } 0.2
      ctrlNone).verticalVelocity = 0 ∧
    (playerUpdate geomW worldW { playerLanding with sprinting := false } 0.2
      ctrlNone).pos.y = (0.4 : ℚ) + 0 ∧
    (playerUpdate geomW worldW { playerLanding with sprinting := false } 0.2
      ctrlNone).currentAnimation ≠ some "jump" := by
  have h := C4_landing_behaviour geomW worldW { playerLanding with sprinting := false }
    0.2 ctrlNone ⟨5, ⟨0, 0.4, 0⟩⟩ []
    (by with_unfolding_all decide) (by with_unfolding_all decide)
    (by with_unfolding_all decide) (by with_unfolding_all decide)
    (by with_unfolding_all decide) (by with_unfolding_all decide)
    (by with_unfolding_all decide) (by with_unfolding_all decide)
  exact ⟨h.2.1, h.2.2.1, h.2.2.2.1, h.2.2.2.2.1⟩

/-! ### Claim C5: wrap-aware angle interpolation -/

/-- The JavaScript remainder stays strictly between `-y` and `y` for a
positive modulus. -/
theorem jsMod_bounds {K : Type} [LinearOrderedField K] [FloorRing K]
    (x y : K) (hy : 0 < y) : -y < jsMod x y ∧ jsMod x y < y := by
  have hxy : x / y * y = x := div_mul_cancel₀ x (ne_of_gt hy)
  unfold jsMod jsTrunc
  split_ifs with h
  · have h1 : (⌈x / y⌉ : K) < x / y + 1 := Int.ceil_lt_add_one _
    have h2 : x / y ≤ (⌈x / y⌉ : K) := Int.le_ceil _
    constructor <;> nlinarith
  · have h1 : (⌊x / y⌋ : K) ≤ x / y := Int.floor_le _
    have h2 : x / y < (⌊x / y⌋ : K) + 1 := Int.lt_floor_add_one _
    constructor <;> nlinarith

/-- `x % y = x` when `x` is nonpositive but larger than `-y` (the case
the cinematic 170°→-170° sweep exercises). -/
theorem jsMod_small {K : Type} [LinearOrderedField K] [FloorRing K]
    (x y : K) (hy : 0 < y) (h1 : -y < x) (h2 : x ≤ 0) : jsMod x y = x := by
  have htr : jsTrunc (x / y) = 0 := by
    unfold jsTrunc
    rcases lt_or_eq_of_le h2 with hx | hx
    · rw [if_pos (div_neg_of_neg_of_pos hx hy), Int.ceil_eq_zero_iff]
      constructor
      · rw [lt_div_iff hy]
        linarith
      · rw [div_le_iff hy]
        linarith
    · simp [hx]
  unfold jsMod
  rw [htr]
  push_cast
  ring

/-- `y % y = 0` for a positive modulus. -/
theorem jsMod_self {K : Type} [LinearOrderedField K] [FloorRing K]
    (y : K) (hy : 0 < y) : jsMod y y = 0 := by
  unfold jsMod jsTrunc
  rw [div_self (ne_of_gt hy)]
  rw [if_neg (by norm_num : ¬((1 : K) < 0))]
  simp

/-- The code's normalized angle difference lands in `[-p, p)` — the
half-open interval closed on the left, not `(-p, p]`. -/
theorem shortestAngleDiff_bounds {K : Type} [LinearOrderedField K] [FloorRing K]
    (p a b : K) (hp : 0 < p) :
    -p ≤ shortestAngleDiff p a b ∧ shortestAngleDiff p a b < p := by
  obtain ⟨hl, hu⟩ := jsMod_bounds (b - a + p) (p * 2) (by linarith)
  unfold shortestAngleDiff
  dsimp only
  split_ifs with h <;> constructor <;> linarith

/-- The normalized difference agrees with `b - a` modulo full turns. -/
theorem shortestAngleDiff_congruent {K : Type} [LinearOrderedField K] [FloorRing K]
    (p a b : K) : ∃ k : ℤ, b - a - shortestAngleDiff p a b = 2 * p * k := by
  unfold shortestAngleDiff jsMod
  dsimp only
  split_ifs with h
  · exact ⟨jsTrunc ((b - a + p) / (p * 2)) - 1, by push_cast; ring⟩
  · exact ⟨jsTrunc ((b - a + p) / (p * 2)), by push_cast; ring⟩

/-- The 170°→-170° sweep: the normalized difference is `+20°` (`p/9`),
i.e. the short way through 180°. -/
theorem shortestAngleDiff_170 {K : Type} [LinearOrderedField K] [FloorRing K]
    (p : K) (hp : 0 < p) :
    shortestAngleDiff p (17 * p / 18) (-(17 * p / 18)) = p / 9 := by
  unfold shortestAngleDiff
  rw [show -(17 * p / 18) - 17 * p / 18 + p = -(8 * p / 9) by ring]
  rw [jsMod_small (-(8 * p / 9)) (p * 2) (by linarith) (by linarith) (by linarith)]
  rw [if_pos (by linarith : -(8 * p / 9) - p < -p)]
  ring

/-- C5 (amended): `lerpAngle` moves `a` toward `b` along the signed
difference normalized to the half-open interval `[-π, π)` (not `(-π, π]`
as claimed — see the counterexample), the normalized difference agrees
with `b - a` modulo `2π`, and interpolating from 170° to -170° proceeds
through +20°: it reaches 180° at `t = 1/2`, stays within `[170°, 190°]`,
and never passes through 0°. -/
theorem C5_lerpAngle_shortest_arc :
    (∀ a b t : ℝ, lerpAngle Real.pi a b t = a + shortestAngleDiff Real.pi a b * t) ∧
    (∀ a b : ℝ, -Real.pi ≤ shortestAngleDiff Real.pi a b ∧
      shortestAngleDiff Real.pi a b < Real.pi) ∧
    (∀ a b : ℝ, ∃ k : ℤ, b - a - shortestAngleDiff Real.pi a b = 2 * Real.pi * k) ∧
    shortestAngleDiff Real.pi (17 * Real.pi / 18) (-(17 * Real.pi / 18)) = Real.pi / 9 ∧
    lerpAngle Real.pi (17 * Real.pi / 18) (-(17 * Real.pi / 18)) (1/2) = Real.pi ∧
    (∀ t : ℝ, 0 ≤ t → t ≤ 1 →
      17 * Real.pi / 18 ≤ lerpAngle Real.pi (17 * Real.pi / 18) (-(17 * Real.pi / 18)) t ∧
      lerpAngle Real.pi (17 * Real.pi / 18) (-(17 * Real.pi / 18)) t ≤ 19 * Real.pi / 18 ∧
      0 < lerpAngle Real.pi (17 * Real.pi / 18) (-(17 * Real.pi / 18)) t) := by
  have hp := Real.pi_pos
  have h170 := shortestAngleDiff_170 Real.pi hp
  refine ⟨fun a b t => rfl, fun a b => shortestAngleDiff_bounds Real.pi a b hp,
    fun a b => shortestAngleDiff_congruent Real.pi a b, h170, ?_, ?_⟩
  · unfold lerpAngle
    rw [h170]
    ring
  · intro t h0 h1
    unfold lerpAngle
    rw [h170]
    refine ⟨?_, ?_, ?_⟩ <;> nlinarith

/-- Counterexample to C5 as stated: for `a = 0`, `b = π` the code
normalizes the difference to `-π`, which lies outside the claimed
interval `(-π, π]` — the code's interval is `[-π, π)`. -/
theorem C5_counterexample :
    shortestAngleDiff Real.pi 0 Real.pi = -Real.pi ∧
    ¬(-Real.pi < shortestAngleDiff Real.pi 0 Real.pi ∧
      shortestAngleDiff Real.pi 0 Real.pi ≤ Real.pi) := by
  have hp := Real.pi_pos
  have h : shortestAngleDiff Real.pi 0 Real.pi = -Real.pi := by
    unfold shortestAngleDiff
    rw [show (Real.pi - 0 + Real.pi) = Real.pi * 2 by ring]
    rw [jsMod_self (Real.pi * 2) (by linarith)]
    rw [if_neg (by linarith : ¬((0 : ℝ) - Real.pi < -Real.pi))]
    ring
  refine ⟨h, ?_⟩
  rw [h]
  simp

/-- Witness for C5's bounded-path conjunct at `t = 1/2`. -/
theorem C5_witness :
    17 * Real.pi / 18 ≤ lerpAngle Real.pi (17 * Real.pi / 18) (-(17 * Real.pi / 18)) (1/2) ∧
    lerpAngle Real.pi (17 * Real.pi / 18) (-(17 * Real.pi / 18)) (1/2) ≤ 19 * Real.pi / 18 ∧
    0 < lerpAngle Real.pi (17 * Real.pi / 18) (-(17 * Real.pi / 18)) (1/2) :=
  C5_lerpAngle_shortest_arc.2.2.2.2.2 (1/2) (by norm_num) (by norm_num)

end BuliMaps
